import Mathlib

/-!
# JollyCV ColecoVision core — verification of the specification claims

This file gives a shallow embedding, in Lean 4, of the JollyCV ColecoVision
emulator core (`jcv.c`, `jcv_memio.h`/`.c`, `jcv_vdp.c`, `jcv_psg.c`,
`jcv_sgmpsg.c`, the Z80 host adapter, and the OpenEmu front-end wrapper),
and proves or refutes the frozen claims C1–C10 about it.

Modelling conventions:
* C integers are modelled as `Nat`.  A `uint8_t`/`uint16_t`/`uint32_t`
  *store* truncates with `% 256` / `% 65536` / `% 4294967296` exactly where
  the C type conversion happens.  Function parameters that are already typed
  as small integers in C are taken as plain `Nat`; theorems add the byte /
  halfword bounds as hypotheses where the claims need them.
* C arrays are modelled as total functions `Nat → Nat`; the C code always
  indexes them through the same masks/guards as the model, so only the
  in-range part of the function is ever relevant.  A C `for` loop assigning
  cells `0..n-1` becomes either a `Function.update` chain, an if-window
  function, or a `List.foldl` over `List.range n`.
* The per-file `static` variables of each C translation unit are gathered in
  one structure per unit, and `CVState` aggregates all of them (the process
  image of the running emulator).
* The serial primitives (`jcv_serial.c`) are not part of the provided
  sources; they are modelled from the spec: explicit little-endian push/pop
  of u8/u16/u32 and raw blocks into a byte buffer, with a running cursor.
* Calls to the out-of-scope Z80 interpreter hook `jcv_z80_nmi` are recorded
  in a ghost counter `nmiPulses` so that "an NMI is pulsed" is observable.
-/

/-! ## Memory / IO bus state (`jcv_memio.c` translation unit)

`cv_sys_t` holds system RAM, Super Game Module RAM, the controller strobe
segment and the two cached controller words; the remaining fields are the
file-level statics of `jcv_memio.c`. -/

structure CvSys where
  ram : Nat → Nat      -- uint8_t ram[0x400]
  sgmram : Nat → Nat   -- uint8_t sgmram[0x8000]
  cseg : Nat           -- uint8_t
  ctrl : Nat → Nat     -- uint16_t ctrl[2]

structure MemioSt where
  cvsys : CvSys
  cvbios : Nat → Nat   -- uint8_t* (8 KB BIOS image)
  romdata : Nat → Nat  -- uint8_t* (cartridge ROM image)
  romsize : Nat        -- size_t
  rompages : Nat       -- uint8_t
  rompage : Nat → Nat  -- uint32_t rompage[4]
  megacart : Nat       -- uint8_t
  sgm_upper : Nat      -- uint8_t
  sgm_lower : Nat      -- uint8_t
  inputcb : Nat → Nat  -- uint16_t (*jcv_input_cb)(int)

/-- `jcv_mem_rd`: read a byte of memory.  Mirrors the ordered dispatch of the
source; the Mega Cart bank-select is a side effect on `rompage[2..3]`, hence
the function returns the (possibly updated) state alongside the value. -/
def jcv_mem_rd (m : MemioSt) (addr : Nat) : Nat × MemioSt :=
  if m.sgm_lower ≠ 0 ∧ addr < 0x2000 then
    (m.cvsys.sgmram addr, m)
  else if addr < 0x2000 then -- BIOS from 0x0000 to 0x1fff
    (m.cvbios addr, m)
  else if m.sgm_upper ≠ 0 ∧ addr < 0x8000 then
    (m.cvsys.sgmram addr, m)
  else if addr < 0x6000 then -- Expansion port reads when no SGM is plugged in
    (0xff, m)
  else if addr < 0x8000 then -- 1K RAM mirrored every 1K for 8K
    (m.cvsys.ram (addr &&& 0x3ff), m)
  else -- Cartridge ROM from 0x8000 to 0xffff
    let m :=
      if m.megacart ≠ 0 ∧ 0xffc0 ≤ addr then -- Select new 16K bank on Mega Carts
        let pg2 := (addr &&& ((m.rompages >>> 1) - 1)) <<< 14
        { m with rompage :=
            Function.update (Function.update m.rompage 2 pg2) 3 (pg2 + 0x2000) }
      else m
    if m.romsize + 0x8000 ≤ addr then (0xff, m) -- reads beyond the ROM's true size
    else (m.romdata (m.rompage ((addr >>> 13) - 4) + (addr &&& 0x1fff)), m)

/-- `jcv_mem_wr`: write a byte to a memory location. -/
def jcv_mem_wr (m : MemioSt) (addr data : Nat) : MemioSt :=
  if m.sgm_lower ≠ 0 ∧ addr < 0x2000 then
    { m with cvsys :=
        { m.cvsys with sgmram := Function.update m.cvsys.sgmram addr data } }
  else if m.sgm_upper ≠ 0 ∧ 0x1fff < addr ∧ addr < 0x8000 then
    { m with cvsys :=
        { m.cvsys with sgmram := Function.update m.cvsys.sgmram addr data } }
  else if 0x5fff < addr ∧ addr < 0x8000 then -- Base System RAM writes
    { m with cvsys :=
        { m.cvsys with ram := Function.update m.cvsys.ram (addr &&& 0x3ff) data } }
  else m

/-- `jcv_rom_load`: load a ColecoVision ROM image (`data`,`size` play the role
of the byte buffer).  Returns the C `int` result together with the state. -/
def jcv_rom_load (m : MemioSt) (data : Nat → Nat) (size : Nat) : Nat × MemioSt :=
  let m := { m with romdata := data, romsize := size }
  if 0x8000 < size then -- ROM image is possibly a Mega Cart
    let hword := data (size - 0x4000) ||| (data (size - 0x4000 + 1) <<< 8)
    if hword ≠ 0xaa55 ∧ hword ≠ 0x55aa then (0, m)
    else
      let m := { m with
        megacart := 1,
        rompages := (size / 0x2000 + if size % 0x2000 ≠ 0 then 1 else 0) % 256,
        rompage := fun i =>
          if i = 0 then size - 0x4000      -- final 16K segment at 0x8000 - 0xbfff
          else if i = 1 then size - 0x2000
          else if i = 2 then 0x0000        -- first 16K bank at 0xc000 - 0xffff
          else if i = 3 then 0x2000
          else m.rompage i }
      (1, m)
  else
    let hword := data 1 ||| (data 0 <<< 8)
    if hword ≠ 0xaa55 ∧ hword ≠ 0x55aa then (0, m)
    else
      let pages := (size / 0x2000 + if size % 0x2000 ≠ 0 then 1 else 0) % 256
      let m := { m with
        rompages := pages,
        rompage := fun i => if i < pages then i * 0x2000 else m.rompage i }
      (1, m)

/-- `jcv_memio_init`: initialize memory and set I/O states to default.
`rand` supplies the stream of `rand() % 256` values used to fill system RAM
with indeterminate data.  Note that the source fills only the first `0x6000`
bytes of the 32 KB SGM RAM with `0xff` (`memset(cvsys.sgmram, 0xff, 0x6000)`). -/
def jcv_memio_init (m : MemioSt) (rand : Nat → Nat) : MemioSt :=
  { m with
    cvsys :=
      { ram := fun i => if i < 0x400 then rand i % 256 else m.cvsys.ram i,
        sgmram := fun i => if i < 0x6000 then 0xff else m.cvsys.sgmram i,
        cseg := 0,
        ctrl := fun i => if i < 2 then 0 else m.cvsys.ctrl i },
    sgm_upper := 0,
    sgm_lower := 0 }

/-- An all-zero bus state, used by concrete witnesses. -/
def zeroMemio : MemioSt :=
  { cvsys := { ram := fun _ => 0, sgmram := fun _ => 0, cseg := 0, ctrl := fun _ => 0 },
    cvbios := fun _ => 0, romdata := fun _ => 0, romsize := 0, rompages := 0,
    rompage := fun _ => 0, megacart := 0, sgm_upper := 0, sgm_lower := 0,
    inputcb := fun _ => 0 }

/-! ## VDP state (`jcv_vdp.c` translation unit)

`cv_vdp_t` plus the file statics (`vbuf`, `numscanlines`, `palette`).  The
ghost field `nmiPulses` counts the calls made to the external CPU hook
`jcv_z80_nmi`, making "an NMI is pulsed" observable in the model. -/

structure Vdp where
  line : Nat           -- uint16_t
  dot : Nat            -- uint16_t
  vram : Nat → Nat     -- uint8_t vram[0x4000]
  addr : Nat           -- uint16_t (14-bit address)
  dlatch : Nat         -- uint8_t
  wlatch : Nat         -- uint8_t
  ctrl : Nat → Nat     -- uint8_t ctrl[8]
  stat : Nat           -- uint8_t
  tbl_col : Nat        -- uint16_t
  tbl_pgen : Nat       -- uint16_t
  tbl_pname : Nat      -- uint16_t
  tbl_sattr : Nat      -- uint16_t
  tbl_spgen : Nat      -- uint16_t
  vbuf : Nat → Nat     -- uint32_t* (caller-supplied 272x208 canvas)
  palette : Nat → Nat  -- const uint32_t* (selected 16-entry palette)
  numscanlines : Nat   -- uint16_t (262 NTSC / 313 PAL)
  nmiPulses : Nat      -- ghost: number of jcv_z80_nmi calls

/-- `jcv_vdp_addr_inc`: increment address with wrap. -/
def jcv_vdp_addr_inc (v : Vdp) : Vdp :=
  { v with addr := (v.addr + 1) &&& 0x3fff }

/-- `jcv_vdp_rendering`: BL bit of control register 1. -/
def jcv_vdp_rendering (v : Vdp) : Nat := v.ctrl 1 &&& 0x40

/-- `jcv_vdp_gint`: GINT bit of control register 1. -/
def jcv_vdp_gint (v : Vdp) : Nat := v.ctrl 1 &&& 0x20

/-- `jcv_vdp_int`: INT bit of the status register. -/
def jcv_vdp_int (v : Vdp) : Nat := v.stat &&& 0x80

/-- `jcv_vdp_bdcol`: current backdrop colour. -/
def jcv_vdp_bdcol (v : Vdp) : Nat := v.palette (v.ctrl 7 &&& 0x0f)

/-- `jcv_vdp_bdline`: fill canvas row `line` (272 pixels) with backdrop. -/
def jcv_vdp_bdline (v : Vdp) (line : Nat) : Vdp :=
  { v with vbuf := fun j =>
      if line * 272 ≤ j ∧ j < line * 272 + 272 then jcv_vdp_bdcol v else v.vbuf j }

/-- `jcv_vdp_pixel` acting on a raw canvas: draw colour `c` at visible
position (`line`,`dot`) (the row is offset by the 8-line top overscan). -/
def jcv_vdp_pix (vb : Nat → Nat) (c line dot : Nat) : Nat → Nat :=
  Function.update vb ((line + 8) * 272 + dot) c

/-- One 6-pixel text cell plus helpers: draw the listed pattern bits at the
running dot position, foreground on set bits.  `bits` is the list of masks
the C `for` loop traverses. -/
def drawPatRow (bits : List Nat) (pat fg bg line : Nat) :
    (Nat → Nat) × Nat → (Nat → Nat) × Nat :=
  fun vd => bits.foldl
    (fun (vd : (Nat → Nat) × Nat) p =>
      (jcv_vdp_pix vd.1 (if pat &&& p ≠ 0 then fg else bg) line vd.2, vd.2 + 1))
    vd

/-- `n` pixels of a fixed colour at the running dot position. -/
def drawSolid (n c line : Nat) : (Nat → Nat) × Nat → (Nat → Nat) × Nat :=
  fun vd => (List.range n).foldl
    (fun (vd : (Nat → Nat) × Nat) _ => (jcv_vdp_pix vd.1 c line vd.2, vd.2 + 1)) vd

/-- `jcv_vdp_bgline`: draw a single line of background pixels.  The function
only assigns `vbuf` pixels and `vdp.dot` (reset to 0 at the end), which the
final record update makes explicit.  `chpat`/`pindex` are loop-carried
(initialised 0) exactly as the C locals declared outside the tile loop. -/
def jcv_vdp_bgline (v : Vdp) : Vdp :=
  let srow := v.line >>> 3
  let prow := v.line &&& 0x07
  let scrmode := ((v.ctrl 1 &&& 0x10) >>> 4) ||| (v.ctrl 0 &&& 0x02) |||
    ((v.ctrl 1 &&& 0x08) >>> 1)
  let offset_pgen := (v.ctrl 4 &&& 0x04) <<< 11
  let bd := jcv_vdp_bdcol v
  if scrmode = 0x01 then -- Text Mode
    let fg := v.palette ((v.ctrl 7 >>> 4) &&& 0x0f)
    -- 16 pixel left/right borders, interleaved exactly as in the source
    let vd := (List.range 16).foldl
      (fun (vd : (Nat → Nat) × Nat) p =>
        (jcv_vdp_pix (jcv_vdp_pix vd.1 bd v.line vd.2) bd v.line (p + 256), vd.2 + 1))
      (v.vbuf, v.dot)
    -- 40 text positions, 6 pixels wide each (bits 7..2 of the pattern byte)
    let vd := (List.range 40).foldl
      (fun vd i =>
        let opname := v.vram (v.tbl_pname + srow * 40 + i)
        let pindex := v.vram (v.tbl_pgen + (opname <<< 3) + prow)
        drawPatRow [0x80, 0x40, 0x20, 0x10, 0x08, 0x04] pindex fg bd v.line vd)
      vd
    { v with vbuf := vd.1, dot := 0 }
  else
    let vd := drawSolid 8 bd v.line (v.vbuf, v.dot) -- left overscan
    let res := (List.range 32).foldl
      (fun (acc : ((Nat → Nat) × Nat) × Nat × Nat) i =>
        let vd := acc.1
        let chpat := acc.2.1
        let pindex := acc.2.2
        if scrmode = 0x00 then -- Mode 0: Graphics 1
          let opname := v.vram (v.tbl_pname + (srow <<< 5) + i)
          let chpat := v.vram (v.tbl_pgen + (opname <<< 3) + prow)
          let pindex := v.vram (v.tbl_col + (opname >>> 3))
          let fg := if pindex >>> 4 ≠ 0 then v.palette (pindex >>> 4) else bd
          let bg := if pindex &&& 0x0f ≠ 0 then v.palette (pindex &&& 0x0f) else bd
          (drawPatRow [0x80, 0x40, 0x20, 0x10, 0x08, 0x04, 0x02, 0x01]
            chpat fg bg v.line vd, chpat, pindex)
        else if scrmode = 0x02 then -- Mode 2: Graphics 2
          let opname := v.vram (v.tbl_pname + (srow <<< 5) + i) + ((srow &&& 0x18) <<< 5)
          let offset_col := v.tbl_col &&& 0x2000
          let m1 := ((v.ctrl 4 &&& 0x03) <<< 8) ||| 0xff
          let m2 := ((v.ctrl 3 &&& 0x7f) <<< 3) ||| 0x07
          let chpat := v.vram (offset_pgen + ((opname &&& m1) <<< 3) + prow)
          let pindex := v.vram (offset_col + ((opname &&& m2) <<< 3) + prow)
          let fg := if pindex >>> 4 ≠ 0 then v.palette (pindex >>> 4) else bd
          let bg := if pindex &&& 0x0f ≠ 0 then v.palette (pindex &&& 0x0f) else bd
          (drawPatRow [0x80, 0x40, 0x20, 0x10, 0x08, 0x04, 0x02, 0x01]
            chpat fg bg v.line vd, chpat, pindex)
        else if scrmode = 0x04 then -- Mode 3: Multicolor
          let opname := v.vram (v.tbl_pname + (srow <<< 5) + i)
          let offset_col := offset_pgen + (opname <<< 3) + ((srow &&& 0x03) <<< 1) +
            (if v.line &&& 0x04 ≠ 0 then 1 else 0)
          let pindex := v.vram offset_col
          let fg := if pindex >>> 4 ≠ 0 then v.palette (pindex >>> 4) else bd
          let bg := if pindex &&& 0x0f ≠ 0 then v.palette (pindex &&& 0x0f) else bd
          (drawSolid 4 bg v.line (drawSolid 4 fg v.line vd), chpat, pindex)
        else -- unsupported mode values: stale chpat/pindex are redrawn
          let fg := if pindex >>> 4 ≠ 0 then v.palette (pindex >>> 4) else bd
          let bg := if pindex &&& 0x0f ≠ 0 then v.palette (pindex &&& 0x0f) else bd
          (drawPatRow [0x80, 0x40, 0x20, 0x10, 0x08, 0x04, 0x02, 0x01]
            chpat fg bg v.line vd, chpat, pindex))
      (vd, 0, 0)
    let vd := drawSolid 8 bd v.line res.1 -- right overscan
    { v with vbuf := vd.1, dot := 0 }

/-! ### VDP port functions -/

/-- `jcv_vdp_rd_data`: VRAM data read — clears the write latch, returns the
old data latch, refills the latch from VRAM, increments the address. -/
def jcv_vdp_rd_data (v : Vdp) : Nat × Vdp :=
  let v := { v with wlatch := 0 }
  let rb := v.dlatch
  let v := { v with dlatch := v.vram v.addr }
  (rb, jcv_vdp_addr_inc v)

/-- `jcv_vdp_rd_stat`: status read — clears the write latch, returns the old
status value, clears INT, 5S and C (`stat &= 0x1f`). -/
def jcv_vdp_rd_stat (v : Vdp) : Nat × Vdp :=
  let v := { v with wlatch := 0 }
  let sr := v.stat
  (sr, { v with stat := v.stat &&& 0x1f })

/-- `jcv_vdp_wr_reg`: masked control-register write with derived-table
updates, and the R1 GINT-while-INT NMI edge. -/
def jcv_vdp_wr_reg (v : Vdp) (rnum data : Nat) : Vdp :=
  let dcmask : List Nat := [0x03, 0xfb, 0x0f, 0xff, 0x07, 0x7f, 0x07, 0xff]
  let old_gint := jcv_vdp_gint v
  let v := { v with ctrl := Function.update v.ctrl rnum (data &&& dcmask.getD rnum 0) }
  if rnum = 1 then
    if jcv_vdp_int v ≠ 0 ∧ jcv_vdp_gint v ≠ 0 ∧ old_gint = 0 then
      { v with nmiPulses := v.nmiPulses + 1 }
    else v
  else if rnum = 2 then { v with tbl_pname := v.ctrl 2 <<< 10 }
  else if rnum = 3 then { v with tbl_col := v.ctrl 3 <<< 6 }
  else if rnum = 4 then { v with tbl_pgen := v.ctrl 4 <<< 11 }
  else if rnum = 5 then { v with tbl_sattr := v.ctrl 5 <<< 7 }
  else if rnum = 6 then { v with tbl_spgen := v.ctrl 6 <<< 11 }
  else v

/-- `jcv_vdp_wr_ctrl`: two-step control write. -/
def jcv_vdp_wr_ctrl (v : Vdp) (data : Nat) : Vdp :=
  if v.wlatch ≠ 0 then -- Second Write
    let v := { v with wlatch := 0 }
    let upper := (data &&& 0x3f) <<< 8
    let v := { v with addr := upper ||| v.dlatch }
    if data &&& 0xc0 = 0x00 then -- Read VRAM data into the latch
      jcv_vdp_addr_inc { v with dlatch := v.vram v.addr }
    else if data &&& 0xc0 = 0x80 then -- Register write
      jcv_vdp_wr_reg v (data &&& 0x07) v.dlatch
    else v
  else -- First Write
    { v with wlatch := 1, addr := (v.addr &&& 0x3f00) ||| data, dlatch := data }

/-- `jcv_vdp_wr_data`: VRAM data write. -/
def jcv_vdp_wr_data (v : Vdp) (data : Nat) : Vdp :=
  jcv_vdp_addr_inc
    { v with wlatch := 0, dlatch := data, vram := Function.update v.vram v.addr data }

/-! ### Sprite rendering -/

/-- Accumulator of the sprite walk: the status register, the per-line palette
and coincidence buffers (indexed by `Int` because the Early Clock bit can
shift sprites partially off the left edge), and the sprite-per-line count. -/
structure SprAcc where
  stat : Nat
  linebuf : Int → Nat
  cbuf : Int → Nat
  numspr : Nat

/-- One column of the inner pixel loop of `jcv_vdp_sprline`: the running
state is the current pattern byte `sppat` and the accumulator. -/
def sprPixStep (v : Vdp) (sprmag sprsize : Nat) (x : Int) (c pname srow : Nat)
    (st : Nat × SprAcc) (p : Nat) : Nat × SprAcc :=
  let sppat := st.1
  let a := st.2
  if x + p < -(sprsize : Int) ∨ x + p ≥ 256 ∨ c = 0 then st
  else
    let sppat :=
      if sprsize = 16 ∧ p = (8 <<< sprmag) then
        v.vram ((v.tbl_spgen + (pname <<< 3) + srow) ||| 0x10)
      else sppat
    if sppat &&& (0x80 >>> ((p >>> sprmag) &&& 7)) ≠ 0 then
      if a.cbuf (x + p) ≠ 0 then
        (sppat, { a with stat := a.stat ||| 0x20 })
      else if 0 ≤ x + p then
        (sppat, { a with
          linebuf := Function.update a.linebuf (x + p) (c &&& 0x0f),
          cbuf := Function.update a.cbuf (x + p) 1 })
      else (sppat, a)
    else (sppat, a)

/-- Inner pixel loop of `jcv_vdp_sprline` for one sprite: walks the
`sprsize << sprmag` columns, switching to the second pattern byte of a 16x16
sprite on entering its right half, recording collisions and palette data. -/
def sprPixLoop (v : Vdp) (sprmag sprsize : Nat) (x : Int) (c pname srow : Nat)
    (sppat0 : Nat) (acc : SprAcc) : SprAcc :=
  ((List.range (sprsize <<< sprmag)).foldl
    (sprPixStep v sprmag sprsize x c pname srow) (sppat0, acc)).2

/-- The 32-entry sprite attribute walk of `jcv_vdp_sprline`, with the two
early exits (Y = 208 terminator, fifth sprite). -/
def sprWalk (v : Vdp) (sprmag sprsize : Nat) : List Nat → SprAcc → SprAcc
  | [], acc => acc
  | i :: rest, acc =>
    let y0 : Int := v.vram (v.tbl_sattr + i * 4)
    let x0 : Int := v.vram (v.tbl_sattr + i * 4 + 1)
    let pname := v.vram (v.tbl_sattr + i * 4 + 2)
    let c := v.vram (v.tbl_sattr + i * 4 + 3)
    -- stat &= ~0x1f (uint8_t: &&& 0xe0); stat |= i & 0x1f
    let acc := { acc with stat := (acc.stat &&& 0xe0) ||| (i &&& 0x1f) }
    let x := if c &&& 0x80 ≠ 0 then x0 - 32 else x0 -- Early Clock
    if y0 = 208 then acc -- terminator: stop the whole walk
    else
      let y1 := if y0 > 224 then y0 - 256 else y0 -- "partially signed" wrap
      let y := y1 + 1
      if y > (v.line : Int) ∨ y + ((sprsize <<< sprmag : Nat) : Int) ≤ (v.line : Int) then
        sprWalk v sprmag sprsize rest acc -- sprite not on this scanline
      else if acc.numspr + 1 = 5 then
        { acc with stat := acc.stat ||| 0x40, numspr := acc.numspr + 1 } -- 5S
      else
        let acc := { acc with numspr := acc.numspr + 1 }
        let pname := if sprsize = 16 then pname &&& 0xfc else pname
        let srow := ((v.line : Int) - y).toNat >>> sprmag
        let sppat := v.vram (v.tbl_spgen + (pname <<< 3) + srow)
        sprWalk v sprmag sprsize rest
          (sprPixLoop v sprmag sprsize x c pname srow sppat acc)

/-- `jcv_vdp_sprline`: draw a single line of sprite pixels.  Only `vbuf` and
`stat` are assigned by the source, which the record update makes explicit. -/
def jcv_vdp_sprline (v : Vdp) : Vdp :=
  let sprmag := v.ctrl 1 &&& 0x01
  let sprsize := if v.ctrl 1 &&& 0x02 ≠ 0 then 16 else 8
  let acc := sprWalk v sprmag sprsize (List.range 32)
    { stat := v.stat, linebuf := fun _ => 0, cbuf := fun _ => 0, numspr := 0 }
  { v with
    stat := acc.stat,
    vbuf := (List.range 256).foldl
      (fun vb (i : Nat) =>
        if acc.linebuf i ≠ 0 then
          jcv_vdp_pix vb (v.palette (acc.linebuf i)) v.line (i + 8)
        else vb)
      v.vbuf }

/-- The drawing part of `jcv_vdp_exec`: on visible lines, background plus
(outside Text Mode) sprites when rendering is enabled, backdrop otherwise. -/
def jcv_vdp_render_stage (v : Vdp) : Vdp :=
  if jcv_vdp_rendering v ≠ 0 ∧ v.line < 192 then
    let v := jcv_vdp_bgline v
    if v.ctrl 1 &&& 0x10 = 0 then jcv_vdp_sprline v else v -- no sprites in Text Mode
  else if v.line < 192 then
    jcv_vdp_bdline v (v.line + 8)
  else v

/-- The overscan-band painting done when the frame wraps. -/
def jcv_vdp_wrap_bands (v : Vdp) : Vdp :=
  (List.range 8).foldl (fun vv i => jcv_vdp_bdline (jcv_vdp_bdline vv i) (i + 200)) v

/-- The tail of `jcv_vdp_exec` after the drawing stage: advance the line
counter, handle the VBlank interrupt edge at line 192, wrap at the end of
the frame. -/
def jcv_vdp_exec_post (v : Vdp) : Vdp :=
  let v := { v with line := v.line + 1 }
  let v :=
    if v.line = 192 then -- Enter VBLANK
      let old_int := jcv_vdp_int v
      let v := { v with stat := v.stat ||| 0x80 }
      if jcv_vdp_gint v ≠ 0 ∧ old_int = 0 then
        { v with nmiPulses := v.nmiPulses + 1 } -- jcv_z80_nmi()
      else v
    else v
  if v.line = v.numscanlines then
    jcv_vdp_wrap_bands { v with line := 0 }
  else v

/-- `jcv_vdp_exec`: draw one scanline, advance the line counter, handle the
VBlank interrupt edge at line 192 and the end-of-frame wrap. -/
def jcv_vdp_exec (v : Vdp) : Vdp :=
  jcv_vdp_exec_post (jcv_vdp_render_stage v)

/-- `jcv_vdp_init`: reset the VDP context. -/
def jcv_vdp_init (v : Vdp) : Vdp :=
  let v := { v with
    line := 0, dot := 0, ctrl := fun _ => 0, stat := 0,
    vram := fun i => if i < 0x4000 then 0 else v.vram i,
    addr := 0, dlatch := 0, wlatch := 0 }
  { v with
    tbl_col := v.ctrl 3 <<< 6,
    tbl_pname := v.ctrl 2 <<< 10,
    tbl_pgen := v.ctrl 4 <<< 11,
    tbl_sattr := v.ctrl 5 <<< 7,
    tbl_spgen := v.ctrl 6 <<< 11 }

/-! ## SN76489AN PSG (`jcv_psg.c` translation unit) -/

structure Psg where
  clatch : Nat          -- uint8_t
  attenuator : Nat → Nat -- uint8_t attenuator[4]
  frequency : Nat → Nat  -- uint16_t frequency[3]
  noise : Nat           -- uint8_t
  lfsr : Nat            -- uint16_t (15 bits used)
  counter : Nat → Nat   -- uint16_t counter[4]
  output : Nat → Nat    -- int16_t output[4] (always a volume-table value here)
  freqff : Nat          -- uint8_t
  buf : Nat → Nat       -- int16_t* psgbuf
  bufpos : Nat          -- size_t

/-- SN76489 volume table. -/
def psg_vtable : List Nat :=
  [0x1fff, 0x196b, 0x1431, 0x100a, 0x0cbd, 0x0a1f, 0x080a, 0x066a,
   0x0512, 0x0407, 0x0333, 0x028b, 0x0205, 0x019b, 0x0146, 0x0000]

/-- `jcv_psg_init`. -/
def jcv_psg_init (p : Psg) : Psg :=
  { p with
    clatch := 0,
    attenuator := fun i => if i < 4 then 0x0f else p.attenuator i,
    counter := fun i => if i < 4 then 0 else p.counter i,
    frequency := fun i => if i < 3 then 0 else p.frequency i,
    noise := 0,
    lfsr := 1 <<< 14,
    freqff := 0 }

/-- `jcv_psg_wr`: LATCH/DATA and DATA byte handling. -/
def jcv_psg_wr (p : Psg) (data : Nat) : Psg :=
  let p := if data &&& 0x80 ≠ 0 then { p with clatch := data } else p
  let chan := (p.clatch &&& 0x60) >>> 5
  if p.clatch &&& 0x10 ≠ 0 then -- Attenuator registers
    { p with attenuator := Function.update p.attenuator chan (data &&& 0x0f) }
  else if chan < 3 then -- Frequency registers
    let newf :=
      if data &&& 0x80 ≠ 0 then
        (p.frequency chan &&& 0x03f0) ||| (data &&& 0x0f) -- LATCH/DATA
      else
        ((p.frequency chan &&& 0x0f) ||| (data <<< 4)) &&& 0x03ff -- DATA
    { p with frequency := Function.update p.frequency chan newf }
  else if chan = 3 then -- Noise register: write reseeds the LFSR
    { p with noise := data &&& 0x07, lfsr := 1 <<< 14 }
  else p

/-- 16-bit parity helper of `jcv_psg.c`. -/
def psg_parity (v : Nat) : Nat :=
  let v := v ^^^ (v >>> 8)
  let v := v ^^^ (v >>> 4)
  let v := v &&& 0xf
  (0x6996 >>> v) &&& 1

/-- One tone-channel step of `jcv_psg_exec`. -/
def psgToneStep (p : Psg) (i : Nat) : Psg :=
  let p :=
    if p.counter i > 0 then
      { p with counter := Function.update p.counter i (p.counter i - 1) }
    else p
  if p.counter i = 0 then
    let p := { p with
      counter := Function.update p.counter i (p.frequency i),
      output := Function.update p.output i (psg_vtable.getD (p.attenuator i) 0),
      freqff := p.freqff ^^^ (1 <<< i) }
    if p.freqff &&& (1 <<< i) ≠ 0 then
      { p with output := Function.update p.output i 0 }
    else p
  else p

/-- `jcv_psg_exec`: one PSG cycle; returns 1, the generated sample count. -/
def jcv_psg_exec (p : Psg) : Psg × Nat :=
  let p := psgToneStep (psgToneStep (psgToneStep p 0) 1) 2
  -- Noise generator
  let p :=
    if p.counter 3 > 0 then
      { p with counter := Function.update p.counter 3 (p.counter 3 - 1) }
    else p
  let out3 := (p.lfsr &&& 0x01) * psg_vtable.getD (p.attenuator 3) 0
  let p := { p with output := Function.update p.output 3 out3 }
  let p :=
    if p.counter 3 = 0 then
      let p := { p with
        counter := Function.update p.counter 3
          (if p.noise &&& 0x03 = 0x03 then p.frequency 2 else 0x10 <<< (p.noise &&& 0x03)),
        freqff := p.freqff ^^^ 0x08 }
      if p.freqff &&& 0x08 ≠ 0 then
        { p with lfsr := (p.lfsr >>> 1) |||
            (if p.noise &&& 0x04 ≠ 0 then psg_parity (p.lfsr &&& 0x0003) <<< 14
             else (p.lfsr &&& 0x01) <<< 14) }
      else p
    else p
  ({ p with
      buf := Function.update p.buf p.bufpos
        ((p.output 0 + p.output 1 + p.output 2 + p.output 3) % 65536),
      bufpos := p.bufpos + 1 }, 1)

/-! ## AY-3-8910 SGM PSG (`jcv_sgmpsg.c` translation unit) -/

structure SgmPsg where
  reg : Nat → Nat        -- uint8_t reg[16]
  rlatch : Nat           -- uint8_t
  tperiod : Nat → Nat    -- uint16_t tperiod[3]
  tcounter : Nat → Nat   -- uint16_t tcounter[3]
  amplitude : Nat → Nat  -- uint8_t amplitude[3]
  nperiod : Nat          -- uint8_t
  ncounter : Nat         -- uint16_t
  nshift : Nat           -- uint32_t (17 bits used)
  eperiod : Nat          -- uint16_t
  ecounter : Nat         -- uint16_t
  eseg : Nat             -- uint8_t
  estep : Nat            -- uint8_t
  evol : Nat             -- uint8_t
  tdisable : Nat → Nat   -- uint8_t tdisable[3]
  ndisable : Nat → Nat   -- uint8_t ndisable[3]
  emode : Nat → Nat      -- uint8_t emode[3]
  sign : Nat → Nat       -- uint8_t sign[3]
  buf : Nat → Nat        -- int16_t* psgbuf
  bufpos : Nat           -- size_t

/-- AY-3-8910 volume table. -/
def sgm_vtable : List Nat :=
  [0, 40, 60, 86, 124, 186, 264, 440, 518, 840, 1196, 1526, 2016, 2602, 3300, 4096]

/-- `jcv_sgmpsg_env_reset`. -/
def jcv_sgmpsg_env_reset (p : SgmPsg) : SgmPsg :=
  let p := { p with estep := 0 }
  if p.eseg ≠ 0 then -- Segment 1
    if p.reg 13 = 8 ∨ p.reg 13 = 11 ∨ p.reg 13 = 13 ∨ p.reg 13 = 14 then
      { p with evol := 15 } -- Start from the top
    else
      { p with evol := 0 } -- Start from the bottom
  else -- Segment 0
    { p with evol := if p.reg 13 &&& 0x04 ≠ 0 then 0 else 15 }

/-- `jcv_sgmpsg_init`. -/
def jcv_sgmpsg_init (p : SgmPsg) : SgmPsg :=
  { p with
    reg := fun i => if i < 16 then 0 else p.reg i,
    rlatch := 0,
    tperiod := fun i => if i < 3 then 0 else p.tperiod i,
    tcounter := fun i => if i < 3 then 0 else p.tcounter i,
    amplitude := fun i => if i < 3 then 0 else p.amplitude i,
    sign := fun i => if i < 3 then 0 else p.sign i,
    nperiod := 0, ncounter := 0, nshift := 1,
    eperiod := 0, ecounter := 0, eseg := 0, estep := 0, evol := 0,
    tdisable := fun i => if i < 3 then 0 else p.tdisable i,
    ndisable := fun i => if i < 3 then 0 else p.ndisable i,
    emode := fun i => if i < 3 then 0 else p.emode i }

/-- `jcv_sgmpsg_rd`: read the currently latched register. -/
def jcv_sgmpsg_rd (p : SgmPsg) : Nat := p.reg p.rlatch

/-- `jcv_sgmpsg_set_reg`. -/
def jcv_sgmpsg_set_reg (p : SgmPsg) (r : Nat) : SgmPsg := { p with rlatch := r }

/-- `jcv_sgmpsg_wr`: masked register write plus derived state. -/
def jcv_sgmpsg_wr (p : SgmPsg) (data : Nat) : SgmPsg :=
  let dcmask : List Nat :=
    [0xff, 0x0f, 0xff, 0x0f, 0xff, 0x0f, 0x1f, 0xff,
     0x1f, 0x1f, 0x1f, 0xff, 0xff, 0x0f, 0xff, 0xff]
  let p := { p with reg := Function.update p.reg p.rlatch (data &&& dcmask.getD p.rlatch 0) }
  if p.rlatch = 0 ∨ p.rlatch = 1 then
    let t := p.reg 0 ||| (p.reg 1 <<< 8)
    { p with tperiod := Function.update p.tperiod 0 (if t = 0 then 1 else t) }
  else if p.rlatch = 2 ∨ p.rlatch = 3 then
    let t := p.reg 2 ||| (p.reg 3 <<< 8)
    { p with tperiod := Function.update p.tperiod 1 (if t = 0 then 1 else t) }
  else if p.rlatch = 4 ∨ p.rlatch = 5 then
    let t := p.reg 4 ||| (p.reg 5 <<< 8)
    { p with tperiod := Function.update p.tperiod 2 (if t = 0 then 1 else t) }
  else if p.rlatch = 6 then
    { p with nperiod := if p.reg 6 = 0 then 1 else p.reg 6 }
  else if p.rlatch = 7 then
    { p with
      tdisable := fun i => if i < 3 then (p.reg 7 >>> i) &&& 0x01 else p.tdisable i,
      ndisable := fun i => if i < 3 then (p.reg 7 >>> (i + 3)) &&& 0x01 else p.ndisable i }
  else if p.rlatch = 8 then
    { p with amplitude := Function.update p.amplitude 0 (data &&& 0x0f),
             emode := Function.update p.emode 0 ((data >>> 4) &&& 0x01) }
  else if p.rlatch = 9 then
    { p with amplitude := Function.update p.amplitude 1 (data &&& 0x0f),
             emode := Function.update p.emode 1 ((data >>> 4) &&& 0x01) }
  else if p.rlatch = 10 then
    { p with amplitude := Function.update p.amplitude 2 (data &&& 0x0f),
             emode := Function.update p.emode 2 ((data >>> 4) &&& 0x01) }
  else if p.rlatch = 11 ∨ p.rlatch = 12 then
    { p with eperiod := p.reg 11 ||| (p.reg 12 <<< 8) }
  else if p.rlatch = 13 then
    jcv_sgmpsg_env_reset { p with ecounter := 0, eseg := 0 }
  else p

/-- `jcv_sgmpsg_exec`: one AY cycle; returns 1, the generated sample count. -/
def jcv_sgmpsg_exec (p : SgmPsg) : SgmPsg × Nat :=
  -- Clock tone counters (uint16_t pre-increment, reset on reaching the period)
  let toneStep := fun (p : SgmPsg) (i : Nat) =>
    let t := (p.tcounter i + 1) % 65536
    if t ≥ p.tperiod i then
      { p with tcounter := Function.update p.tcounter i 0,
               sign := Function.update p.sign i (p.sign i ^^^ 1) }
    else { p with tcounter := Function.update p.tcounter i t }
  let p := toneStep (toneStep (toneStep p 0) 1) 2
  -- Clock noise counter and the 17-bit LFSR
  let n := (p.ncounter + 1) % 65536
  let p :=
    if n ≥ p.nperiod <<< 1 then
      { p with
        ncounter := 0,
        nshift := (p.nshift >>> 1) ||| (((p.nshift ^^^ (p.nshift >>> 3)) &&& 0x01) <<< 16) }
    else { p with ncounter := n }
  -- Clock envelope counter
  let e := (p.ecounter + 1) % 65536
  let p :=
    if e ≥ p.eperiod <<< 1 then
      let p := { p with ecounter := 0 }
      let p :=
        if p.estep ≠ 0 then
          if p.eseg ≠ 0 then -- Second half of the envelope shape
            if p.reg 13 = 10 ∨ p.reg 13 = 12 then
              { p with evol := (p.evol + 1) % 256 } -- Count Up
            else if p.reg 13 = 8 ∨ p.reg 13 = 14 then
              { p with evol := (p.evol + 255) % 256 } -- Count Down (uint8_t)
            else p -- Hold
          else -- First half of the envelope shape
            if p.reg 13 &&& 0x04 ≠ 0 then { p with evol := (p.evol + 1) % 256 }
            else { p with evol := (p.evol + 255) % 256 }
        else p
      if (p.estep + 1) % 256 ≥ 16 then
        let p := { p with eseg := if p.reg 13 &&& 0x09 = 0x08 then p.eseg ^^^ 1 else 1 }
        jcv_sgmpsg_env_reset p
      else { p with estep := (p.estep + 1) % 256 }
    else { p with ecounter := e }
  -- Mix the three channels
  let vol := (List.range 3).foldl
    (fun vol i =>
      let out := (p.tdisable i ||| p.sign i) &&& (p.ndisable i ||| (p.nshift &&& 0x01))
      if out ≠ 0 then
        vol + (if p.emode i ≠ 0 then sgm_vtable.getD p.evol 0
               else sgm_vtable.getD (p.amplitude i) 0)
      else vol)
    0
  ({ p with buf := Function.update p.buf p.bufpos (vol % 65536),
            bufpos := p.bufpos + 1 }, 1)

/-! ## Z80 host adapter state

The Z80 interpreter itself is out of scope (an external collaborator of the
core); the adapter snapshots and restores its full register file, and owns
the `extracycs`/`delaycycs` statics.  Only the serialized register file is
modelled here. -/

structure Z80Regs where
  pc : Nat          -- uint16_t
  sp : Nat          -- uint16_t
  ix : Nat          -- uint16_t
  iy : Nat          -- uint16_t
  mem_ptr : Nat     -- uint16_t
  a : Nat           -- uint8_t
  f : Nat
  b : Nat
  c : Nat
  d : Nat
  e : Nat
  h : Nat
  l : Nat
  a_ : Nat          -- alternate register set
  f_ : Nat
  b_ : Nat
  c_ : Nat
  d_ : Nat
  e_ : Nat
  h_ : Nat
  l_ : Nat
  i : Nat
  r : Nat
  iff_delay : Nat
  interrupt_mode : Nat
  irq_data : Nat
  iff1 : Nat
  iff2 : Nat
  halted : Nat
  irq_pending : Nat
  nmi_pending : Nat

/-- The whole-process state: the statics of every translation unit. -/
structure CVState where
  memio : MemioSt
  psg : Psg
  sgmpsg : SgmPsg
  vdp : Vdp
  z80 : Z80Regs
  extracycs : Nat   -- static uint32_t extracycs (cyc_store/cyc_restore)
  delaycycs : Nat   -- static uint32_t delaycycs (jcv_z80_delay)
  psgcycs : Nat     -- static size_t psgcycs (jcv.c PSG clock divider state)
  numscanlines : Nat -- static size_t numscanlines (jcv.c copy, set by region)

/-- `jcv_io_rd`: read a byte of data from an I/O port. -/
def jcv_io_rd (st : CVState) (port : Nat) : Nat × CVState :=
  if port &&& 0xe0 = 0xa0 then -- Video
    if port &&& 0x01 ≠ 0 then
      let (r, v) := jcv_vdp_rd_stat st.vdp
      (r, { st with vdp := v })
    else
      let (r, v) := jcv_vdp_rd_data st.vdp
      (r, { st with vdp := v })
  else if port &&& 0xe0 = 0xe0 then -- Strobe controller ports for input state
    let p := (port &&& 0x02) >>> 1
    let w := st.memio.inputcb p % 65536 -- uint16_t store into ctrl[p]
    let st := { st with memio := { st.memio with cvsys :=
      { st.memio.cvsys with ctrl := Function.update st.memio.cvsys.ctrl p w } } }
    -- Return the complement of the value ((uint8_t)~x = x ^^^ 0xff)
    (if st.memio.cvsys.cseg ≠ 0 then
        ((st.memio.cvsys.ctrl p >>> 8) &&& 0xff) ^^^ 0xff -- Joystick, FireL
      else
        (st.memio.cvsys.ctrl p &&& 0xff) ^^^ 0xff, -- Numpad, FireR
     st)
  else if port = 0x52 then -- SGM PSG Read
    (jcv_sgmpsg_rd st.sgmpsg, st)
  else
    (0xff, st)

/-- `jcv_io_wr`: write a byte of data to an I/O port. -/
def jcv_io_wr (st : CVState) (port data : Nat) : CVState :=
  if port &&& 0xe0 = 0x80 then -- Strobe Segment to Numpad/FireR
    { st with memio := { st.memio with cvsys := { st.memio.cvsys with cseg := 0 } } }
  else if port &&& 0xe0 = 0xa0 then -- VDP control registers or VRAM
    if port &&& 0x01 ≠ 0 then { st with vdp := jcv_vdp_wr_ctrl st.vdp data }
    else { st with vdp := jcv_vdp_wr_data st.vdp data }
  else if port &&& 0xe0 = 0xc0 then -- Strobe Segment to Joystick/FireL
    { st with memio := { st.memio with cvsys := { st.memio.cvsys with cseg := 1 } } }
  else if port &&& 0xe0 = 0xe0 then -- PSG write: charge 48 cycles (jcv_z80_delay)
    { st with delaycycs := st.delaycycs + 48, psg := jcv_psg_wr st.psg data }
  else if port = 0x50 then
    { st with sgmpsg := jcv_sgmpsg_set_reg st.sgmpsg (data &&& 0x0f) }
  else if port = 0x51 then
    { st with sgmpsg := jcv_sgmpsg_wr st.sgmpsg data }
  else if port = 0x53 then
    { st with memio := { st.memio with sgm_upper := 1 } }
  else if port = 0x7f then -- sgm_lower = ~data & 0x02
    { st with memio := { st.memio with sgm_lower := (data &&& 0x02) ^^^ 0x02 } }
  else st

/-! ## Serial primitives

Modelled from the spec: `jcv_serial.c` is not among the provided sources.
The spec describes the serial layer as typed push/pop of u8/u16/u32 and raw
blocks into a byte buffer with a running cursor, explicitly little-endian.
A push produces the byte list it appends; a pop consumes bytes from the
front of the remaining buffer.  A C loop of `n` pushes/pops of an array is
flattened into one list/window (`pushblk`/`popblk` for u8 arrays,
`pushN16`/`popN16` for u16 arrays, `pushN32`/`popN32` for u32 arrays). -/

def jcv_serial_push8 (v : Nat) : List Nat := [v % 256]

def jcv_serial_push16 (v : Nat) : List Nat := [v % 256, v / 256 % 256]

def jcv_serial_push32 (v : Nat) : List Nat :=
  [v % 256, v / 256 % 256, v / 65536 % 256, v / 16777216 % 256]

def jcv_serial_pushblk (n : Nat) (f : Nat → Nat) : List Nat :=
  (List.range n).map (fun i => f i % 256)

def jcv_serial_pushN16 (n : Nat) (f : Nat → Nat) : List Nat :=
  (List.range (2 * n)).map
    (fun j => if j % 2 = 0 then f (j / 2) % 256 else f (j / 2) / 256 % 256)

def jcv_serial_pushN32 (n : Nat) (f : Nat → Nat) : List Nat :=
  (List.range (4 * n)).map (fun j => f (j / 4) / 256 ^ (j % 4) % 256)

def jcv_serial_pop8 (st : List Nat) : Nat × List Nat :=
  (st.getD 0 0, st.drop 1)

def jcv_serial_pop16 (st : List Nat) : Nat × List Nat :=
  (st.getD 0 0 + st.getD 1 0 * 256, st.drop 2)

def jcv_serial_pop32 (st : List Nat) : Nat × List Nat :=
  (st.getD 0 0 + st.getD 1 0 * 256 + st.getD 2 0 * 65536 + st.getD 3 0 * 16777216,
   st.drop 4)

/-- Pop an `n`-byte block into an array (cells `≥ n` keep their old value,
as the C array simply has no such cells). -/
def jcv_serial_popblk (n : Nat) (st : List Nat) (old : Nat → Nat) :
    (Nat → Nat) × List Nat :=
  (fun i => if i < n then st.getD i 0 else old i, st.drop n)

def jcv_serial_popN16 (n : Nat) (st : List Nat) (old : Nat → Nat) :
    (Nat → Nat) × List Nat :=
  (fun i => if i < n then st.getD (2 * i) 0 + st.getD (2 * i + 1) 0 * 256 else old i,
   st.drop (2 * n))

def jcv_serial_popN32 (n : Nat) (st : List Nat) (old : Nat → Nat) :
    (Nat → Nat) × List Nat :=
  (fun i => if i < n then
      st.getD (4 * i) 0 + st.getD (4 * i + 1) 0 * 256 +
      st.getD (4 * i + 2) 0 * 65536 + st.getD (4 * i + 3) 0 * 16777216
    else old i,
   st.drop (4 * n))

/-! ## Save-state layout (`jcv_state_save_raw` / `jcv_state_load_raw`)

Each component push/pop mirrors the corresponding C `state_save`/`state_load`
function, field for field and in order. -/

/-- Bytes pushed by the `jcv_memio.c` part of `jcv_state_save_raw`. -/
def pushMemio (m : MemioSt) : List Nat :=
  jcv_serial_pushblk 0x400 m.cvsys.ram ++
  jcv_serial_pushblk 0x8000 m.cvsys.sgmram ++
  jcv_serial_push8 m.cvsys.cseg ++
  jcv_serial_push16 (m.cvsys.ctrl 0) ++
  jcv_serial_push16 (m.cvsys.ctrl 1) ++
  jcv_serial_pushN32 4 m.rompage

/-- The `jcv_memio.c` part of `jcv_state_load_raw`. -/
def popMemio (st : List Nat) (m : MemioSt) : MemioSt × List Nat :=
  let r1 := jcv_serial_popblk 0x400 st m.cvsys.ram
  let r2 := jcv_serial_popblk 0x8000 r1.2 m.cvsys.sgmram
  let r3 := jcv_serial_pop8 r2.2
  let r4 := jcv_serial_pop16 r3.2
  let r5 := jcv_serial_pop16 r4.2
  let r6 := jcv_serial_popN32 4 r5.2 m.rompage
  ({ m with
      cvsys :=
        { ram := r1.1, sgmram := r2.1, cseg := r3.1,
          ctrl := Function.update (Function.update m.cvsys.ctrl 0 r4.1) 1 r5.1 },
      rompage := r6.1 },
   r6.2)

/-- `jcv_psg_state_save`. -/
def pushPsg (p : Psg) : List Nat :=
  jcv_serial_push8 p.clatch ++
  jcv_serial_pushblk 4 p.attenuator ++
  jcv_serial_pushN16 3 p.frequency ++
  jcv_serial_push8 p.noise ++
  jcv_serial_push16 p.lfsr ++
  jcv_serial_pushN16 4 p.counter ++
  jcv_serial_pushN16 4 p.output ++
  jcv_serial_push8 p.freqff

/-- `jcv_psg_state_load`. -/
def popPsg (st : List Nat) (p : Psg) : Psg × List Nat :=
  let r1 := jcv_serial_pop8 st
  let r2 := jcv_serial_popblk 4 r1.2 p.attenuator
  let r3 := jcv_serial_popN16 3 r2.2 p.frequency
  let r4 := jcv_serial_pop8 r3.2
  let r5 := jcv_serial_pop16 r4.2
  let r6 := jcv_serial_popN16 4 r5.2 p.counter
  let r7 := jcv_serial_popN16 4 r6.2 p.output
  let r8 := jcv_serial_pop8 r7.2
  ({ p with
      clatch := r1.1, attenuator := r2.1, frequency := r3.1, noise := r4.1,
      lfsr := r5.1, counter := r6.1, output := r7.1, freqff := r8.1 },
   r8.2)

/-- `jcv_sgmpsg_state_save`. -/
def pushSgm (p : SgmPsg) : List Nat :=
  jcv_serial_pushblk 16 p.reg ++
  jcv_serial_push8 p.rlatch ++
  jcv_serial_pushN16 3 p.tperiod ++
  jcv_serial_pushN16 3 p.tcounter ++
  jcv_serial_pushblk 3 p.amplitude ++
  jcv_serial_push8 p.nperiod ++
  jcv_serial_push16 p.ncounter ++
  jcv_serial_push32 p.nshift ++
  jcv_serial_push16 p.eperiod ++
  jcv_serial_push16 p.ecounter ++
  jcv_serial_push8 p.eseg ++
  jcv_serial_push8 p.estep ++
  jcv_serial_push8 p.evol ++
  jcv_serial_pushblk 3 p.tdisable ++
  jcv_serial_pushblk 3 p.ndisable ++
  jcv_serial_pushblk 3 p.emode ++
  jcv_serial_pushblk 3 p.sign

/-- `jcv_sgmpsg_state_load`. -/
def popSgm (st : List Nat) (p : SgmPsg) : SgmPsg × List Nat :=
  let r1 := jcv_serial_popblk 16 st p.reg
  let r2 := jcv_serial_pop8 r1.2
  let r3 := jcv_serial_popN16 3 r2.2 p.tperiod
  let r4 := jcv_serial_popN16 3 r3.2 p.tcounter
  let r5 := jcv_serial_popblk 3 r4.2 p.amplitude
  let r6 := jcv_serial_pop8 r5.2
  let r7 := jcv_serial_pop16 r6.2
  let r8 := jcv_serial_pop32 r7.2
  let r9 := jcv_serial_pop16 r8.2
  let r10 := jcv_serial_pop16 r9.2
  let r11 := jcv_serial_pop8 r10.2
  let r12 := jcv_serial_pop8 r11.2
  let r13 := jcv_serial_pop8 r12.2
  let r14 := jcv_serial_popblk 3 r13.2 p.tdisable
  let r15 := jcv_serial_popblk 3 r14.2 p.ndisable
  let r16 := jcv_serial_popblk 3 r15.2 p.emode
  let r17 := jcv_serial_popblk 3 r16.2 p.sign
  ({ p with
      reg := r1.1, rlatch := r2.1, tperiod := r3.1, tcounter := r4.1,
      amplitude := r5.1, nperiod := r6.1, ncounter := r7.1, nshift := r8.1,
      eperiod := r9.1, ecounter := r10.1, eseg := r11.1, estep := r12.1,
      evol := r13.1, tdisable := r14.1, ndisable := r15.1, emode := r16.1,
      sign := r17.1 },
   r17.2)

/-- `jcv_vdp_state_save`. -/
def pushVdp (v : Vdp) : List Nat :=
  jcv_serial_push16 v.line ++
  jcv_serial_push16 v.dot ++
  jcv_serial_pushblk 0x4000 v.vram ++
  jcv_serial_push16 v.addr ++
  jcv_serial_push8 v.dlatch ++
  jcv_serial_push8 v.wlatch ++
  jcv_serial_pushblk 8 v.ctrl ++
  jcv_serial_push8 v.stat ++
  jcv_serial_push16 v.tbl_col ++
  jcv_serial_push16 v.tbl_pgen ++
  jcv_serial_push16 v.tbl_pname ++
  jcv_serial_push16 v.tbl_sattr ++
  jcv_serial_push16 v.tbl_spgen

/-- `jcv_vdp_state_load`. -/
def popVdp (st : List Nat) (v : Vdp) : Vdp × List Nat :=
  let r1 := jcv_serial_pop16 st
  let r2 := jcv_serial_pop16 r1.2
  let r3 := jcv_serial_popblk 0x4000 r2.2 v.vram
  let r4 := jcv_serial_pop16 r3.2
  let r5 := jcv_serial_pop8 r4.2
  let r6 := jcv_serial_pop8 r5.2
  let r7 := jcv_serial_popblk 8 r6.2 v.ctrl
  let r8 := jcv_serial_pop8 r7.2
  let r9 := jcv_serial_pop16 r8.2
  let r10 := jcv_serial_pop16 r9.2
  let r11 := jcv_serial_pop16 r10.2
  let r12 := jcv_serial_pop16 r11.2
  let r13 := jcv_serial_pop16 r12.2
  ({ v with
      line := r1.1, dot := r2.1, vram := r3.1, addr := r4.1, dlatch := r5.1,
      wlatch := r6.1, ctrl := r7.1, stat := r8.1, tbl_col := r9.1,
      tbl_pgen := r10.1, tbl_pname := r11.1, tbl_sattr := r12.1,
      tbl_spgen := r13.1 },
   r13.2)

/-- `jcv_z80_state_save` (host adapter). -/
def pushZ80 (z : Z80Regs) : List Nat :=
  jcv_serial_push16 z.pc ++
  jcv_serial_push16 z.sp ++
  jcv_serial_push16 z.ix ++
  jcv_serial_push16 z.iy ++
  jcv_serial_push16 z.mem_ptr ++
  jcv_serial_push8 z.a ++
  jcv_serial_push8 z.f ++
  jcv_serial_push8 z.b ++
  jcv_serial_push8 z.c ++
  jcv_serial_push8 z.d ++
  jcv_serial_push8 z.e ++
  jcv_serial_push8 z.h ++
  jcv_serial_push8 z.l ++
  jcv_serial_push8 z.a_ ++
  jcv_serial_push8 z.f_ ++
  jcv_serial_push8 z.b_ ++
  jcv_serial_push8 z.c_ ++
  jcv_serial_push8 z.d_ ++
  jcv_serial_push8 z.e_ ++
  jcv_serial_push8 z.h_ ++
  jcv_serial_push8 z.l_ ++
  jcv_serial_push8 z.i ++
  jcv_serial_push8 z.r ++
  jcv_serial_push8 z.iff_delay ++
  jcv_serial_push8 z.interrupt_mode ++
  jcv_serial_push8 z.irq_data ++
  jcv_serial_push8 z.iff1 ++
  jcv_serial_push8 z.iff2 ++
  jcv_serial_push8 z.halted ++
  jcv_serial_push8 z.irq_pending ++
  jcv_serial_push8 z.nmi_pending

/-- `jcv_z80_state_load` (host adapter). -/
def popZ80 (st : List Nat) : Z80Regs × List Nat :=
  let r1 := jcv_serial_pop16 st
  let r2 := jcv_serial_pop16 r1.2
  let r3 := jcv_serial_pop16 r2.2
  let r4 := jcv_serial_pop16 r3.2
  let r5 := jcv_serial_pop16 r4.2
  let r6 := jcv_serial_pop8 r5.2
  let r7 := jcv_serial_pop8 r6.2
  let r8 := jcv_serial_pop8 r7.2
  let r9 := jcv_serial_pop8 r8.2
  let r10 := jcv_serial_pop8 r9.2
  let r11 := jcv_serial_pop8 r10.2
  let r12 := jcv_serial_pop8 r11.2
  let r13 := jcv_serial_pop8 r12.2
  let r14 := jcv_serial_pop8 r13.2
  let r15 := jcv_serial_pop8 r14.2
  let r16 := jcv_serial_pop8 r15.2
  let r17 := jcv_serial_pop8 r16.2
  let r18 := jcv_serial_pop8 r17.2
  let r19 := jcv_serial_pop8 r18.2
  let r20 := jcv_serial_pop8 r19.2
  let r21 := jcv_serial_pop8 r20.2
  let r22 := jcv_serial_pop8 r21.2
  let r23 := jcv_serial_pop8 r22.2
  let r24 := jcv_serial_pop8 r23.2
  let r25 := jcv_serial_pop8 r24.2
  let r26 := jcv_serial_pop8 r25.2
  let r27 := jcv_serial_pop8 r26.2
  let r28 := jcv_serial_pop8 r27.2
  let r29 := jcv_serial_pop8 r28.2
  let r30 := jcv_serial_pop8 r29.2
  let r31 := jcv_serial_pop8 r30.2
  ({ pc := r1.1, sp := r2.1, ix := r3.1, iy := r4.1, mem_ptr := r5.1,
     a := r6.1, f := r7.1, b := r8.1, c := r9.1, d := r10.1, e := r11.1,
     h := r12.1, l := r13.1, a_ := r14.1, f_ := r15.1, b_ := r16.1,
     c_ := r17.1, d_ := r18.1, e_ := r19.1, h_ := r20.1, l_ := r21.1,
     i := r22.1, r := r23.1, iff_delay := r24.1, interrupt_mode := r25.1,
     irq_data := r26.1, iff1 := r27.1, iff2 := r28.1, halted := r29.1,
     irq_pending := r30.1, nmi_pending := r31.1 },
   r31.2)

/-- `jcv_state_save_raw`: snapshot the running state, in the documented
order (system RAM, SGM RAM, cseg, ctrl, rompage, PSG, SGM-PSG, VDP, Z80). -/
def jcv_state_save_raw (s : CVState) : List Nat :=
  pushMemio s.memio ++ pushPsg s.psg ++ pushSgm s.sgmpsg ++
  pushVdp s.vdp ++ pushZ80 s.z80

/-- `jcv_state_load_raw`: load raw state data into the running system. -/
def jcv_state_load_raw (bytes : List Nat) (s : CVState) : CVState :=
  let m := popMemio bytes s.memio
  let p := popPsg m.2 s.psg
  let q := popSgm p.2 s.sgmpsg
  let v := popVdp q.2 s.vdp
  let z := popZ80 v.2
  { s with memio := m.1, psg := p.1, sgmpsg := q.1, vdp := v.1, z80 := z.1 }

/-- `jcv_state_size`: the exposed fixed state size (`#define SIZE_STATE`). -/
def jcv_state_size : Nat := 50392

/-- `jcv_state_load`: load a state from a file.  The C function opens the
file, reads its entire contents (of whatever size), feeds them to
`jcv_state_load_raw` and returns 1; it never compares the file size against
`jcv_state_size`.  The file contents stand in for the file path. -/
def jcv_state_load (s : CVState) (file : List Nat) : Nat × CVState :=
  (1, jcv_state_load_raw file s)

/-- OpenEmu `deserializeState:withError:`: applies `jcv_state_load_raw`
first, and only afterwards compares the blob length with `jcv_state_size`,
reporting failure (NO) on mismatch — the state has been written either way. -/
def deserializeState (s : CVState) (stateData : List Nat) : Bool × CVState :=
  let s := jcv_state_load_raw stateData s
  (decide (stateData.length = jcv_state_size), s)

/-! ## Frame scheduler (`jcv.c`)

The scheduler drives four collaborators: the external Z80 interpreter
(`jcv_z80_exec`, out of scope, reported cycles include any charged delay),
the two PSGs and the VDP.  Following the spec's hook/callback framing they
are abstracted into a `Hooks` record over an abstract machine state `σ`;
the in-repo instantiations of the PSG/VDP hooks are the concrete functions
defined above.  The `while (linecycs < reqcycs)` loop is embedded with a
fuel argument (the C loop terminates because every instruction reports at
least one cycle; the theorems assume exactly that and show the fuel `req`
suffices).  `psgsamps`/`sgmsamps` accumulate the sample counts returned by
the PSG hooks as in the source; `psgcalls`/`sgmcalls`/`vdpcalls`/`totcycs`
are ghost instrumentation counting hook invocations and executed cycles. -/

structure Hooks (σ : Type) where
  z80_exec : σ → σ × Nat
  psg_exec : σ → σ × Nat
  sgmpsg_exec : σ → σ × Nat
  vdp_exec : σ → σ
  mixer : σ → Nat → Nat → σ

structure LineAcc (σ : Type) where
  s : σ
  linecycs : Nat
  psgcycs : Nat
  psgsamps : Nat
  sgmsamps : Nat
  psgcalls : Nat
  sgmcalls : Nat

/-- The `for (s = 0; s < itercycs; ++s)` PSG divider loop: each time
`++psgcycs % 16 == 0`, run one `psg_exec` and one `sgmpsg_exec` and reset
the divider. -/
def psgCatch {σ : Type} (hk : Hooks σ) : Nat → LineAcc σ → LineAcc σ
  | 0, a => a
  | c + 1, a =>
    if (a.psgcycs + 1) % 16 = 0 then
      let r1 := hk.psg_exec a.s
      let r2 := hk.sgmpsg_exec r1.1
      psgCatch hk c { a with
        s := r2.1, psgcycs := 0,
        psgsamps := a.psgsamps + r1.2, sgmsamps := a.sgmsamps + r2.2,
        psgcalls := a.psgcalls + 1, sgmcalls := a.sgmcalls + 1 }
    else psgCatch hk c { a with psgcycs := a.psgcycs + 1 }

/-- One iteration of the scanline `while` loop: run a single CPU
instruction, account its cycles, and catch the PSGs up. -/
def lineBody {σ : Type} (hk : Hooks σ) (a : LineAcc σ) : LineAcc σ :=
  let r := hk.z80_exec a.s
  psgCatch hk r.2 { a with s := r.1, linecycs := a.linecycs + r.2 }

/-- The `while (linecycs < reqcycs)` loop, with fuel. -/
def lineLoop {σ : Type} (hk : Hooks σ) (req : Nat) : Nat → LineAcc σ → Option (LineAcc σ)
  | fuel, a =>
    if a.linecycs ≥ req then some a
    else
      match fuel with
      | 0 => none
      | f + 1 => lineLoop hk req f (lineBody hk a)

structure FrameAcc (σ : Type) where
  s : σ
  extcycs : Nat
  psgcycs : Nat
  psgsamps : Nat
  sgmsamps : Nat
  psgcalls : Nat
  sgmcalls : Nat
  vdpcalls : Nat
  totcycs : Nat

/-- The per-scanline `for` loop of `jcv_exec`: for each of `n` iterations,
`reqcycs = 228 - extcycs`, run the CPU loop, store `extcycs = linecycs -
reqcycs`, and call `vdp_exec` once. -/
def frameLoop {σ : Type} (hk : Hooks σ) : Nat → FrameAcc σ → Option (FrameAcc σ)
  | 0, a => some a
  | n + 1, a =>
    let req := 228 - a.extcycs -- Z80_CYC_LINE - extcycs (size_t; extcycs ≤ 227 on all reachable states)
    match lineLoop hk req req
        { s := a.s, linecycs := 0, psgcycs := a.psgcycs,
          psgsamps := a.psgsamps, sgmsamps := a.sgmsamps,
          psgcalls := a.psgcalls, sgmcalls := a.sgmcalls } with
    | none => none
    | some r =>
      frameLoop hk n
        { s := hk.vdp_exec r.s, extcycs := r.linecycs - req,
          psgcycs := r.psgcycs, psgsamps := r.psgsamps, sgmsamps := r.sgmsamps,
          psgcalls := r.psgcalls, sgmcalls := r.sgmcalls,
          vdpcalls := a.vdpcalls + 1, totcycs := a.totcycs + r.linecycs }

/-- The scheduler-level statics surrounding a frame: the abstract machine
state, the Z80 adapter's `extracycs` (written by `cyc_store`, read and
zeroed by `cyc_restore`) and the `jcv.c` PSG divider `psgcycs`. -/
structure SchedSt (σ : Type) where
  s : σ
  extracycs : Nat
  psgcycs : Nat

/-- `jcv_exec`: run emulation for one frame.  Resets the per-frame sample
counters, restores the leftover cycle count, runs `numscanlines` scanline
iterations, resamples audio (the mixer hook) and stores the leftover cycle
count for the next frame. -/
def jcv_exec {σ : Type} (hk : Hooks σ) (numscanlines : Nat) (w : SchedSt σ) :
    Option (SchedSt σ) :=
  match frameLoop hk numscanlines
      { s := w.s, extcycs := w.extracycs, psgcycs := w.psgcycs,
        psgsamps := 0, sgmsamps := 0, psgcalls := 0, sgmcalls := 0,
        vdpcalls := 0, totcycs := 0 } with
  | none => none
  | some r =>
    some { s := hk.mixer r.s r.psgsamps r.sgmsamps,
           extracycs := r.extcycs, psgcycs := r.psgcycs }

/-- The in-repo instantiation of the PSG/SGM-PSG/VDP hooks on the aggregate
state (the Z80 hook and the mixer remain the external collaborators). -/
def cvHooks (z80step : CVState → CVState × Nat)
    (mix : CVState → Nat → Nat → CVState) : Hooks CVState :=
  { z80_exec := z80step,
    psg_exec := fun s =>
      let r := jcv_psg_exec s.psg
      ({ s with psg := r.1 }, r.2),
    sgmpsg_exec := fun s =>
      let r := jcv_sgmpsg_exec s.sgmpsg
      ({ s with sgmpsg := r.1 }, r.2),
    vdp_exec := fun s => { s with vdp := jcv_vdp_exec s.vdp },
    mixer := mix }

/-- `n`-fold iterate of the scanline loop body (used to characterise the
`while` loop as "iterate until the cycle budget is met"). -/
def lineIter {σ : Type} (hk : Hooks σ) (n : Nat) (a : LineAcc σ) : LineAcc σ :=
  (lineBody hk)^[n] a

/-! ## Type-bound invariants of the serialized fields

A state whose fields actually come from the C storage satisfies these bounds
by construction of the C types; "reachable" states always do. -/

def ValidMemio (m : MemioSt) : Prop :=
  (∀ i, i < 0x400 → m.cvsys.ram i < 256) ∧
  (∀ i, i < 0x8000 → m.cvsys.sgmram i < 256) ∧
  m.cvsys.cseg < 256 ∧
  m.cvsys.ctrl 0 < 65536 ∧ m.cvsys.ctrl 1 < 65536 ∧
  (∀ i, i < 4 → m.rompage i < 4294967296)

def ValidPsg (p : Psg) : Prop :=
  p.clatch < 256 ∧
  (∀ i, i < 4 → p.attenuator i < 256) ∧
  (∀ i, i < 3 → p.frequency i < 65536) ∧
  p.noise < 256 ∧ p.lfsr < 65536 ∧
  (∀ i, i < 4 → p.counter i < 65536) ∧
  (∀ i, i < 4 → p.output i < 65536) ∧
  p.freqff < 256

def ValidSgm (p : SgmPsg) : Prop :=
  (∀ i, i < 16 → p.reg i < 256) ∧ p.rlatch < 256 ∧
  (∀ i, i < 3 → p.tperiod i < 65536) ∧
  (∀ i, i < 3 → p.tcounter i < 65536) ∧
  (∀ i, i < 3 → p.amplitude i < 256) ∧
  p.nperiod < 256 ∧ p.ncounter < 65536 ∧ p.nshift < 4294967296 ∧
  p.eperiod < 65536 ∧ p.ecounter < 65536 ∧
  p.eseg < 256 ∧ p.estep < 256 ∧ p.evol < 256 ∧
  (∀ i, i < 3 → p.tdisable i < 256) ∧
  (∀ i, i < 3 → p.ndisable i < 256) ∧
  (∀ i, i < 3 → p.emode i < 256) ∧
  (∀ i, i < 3 → p.sign i < 256)

def ValidVdp (v : Vdp) : Prop :=
  v.line < 65536 ∧ v.dot < 65536 ∧
  (∀ i, i < 0x4000 → v.vram i < 256) ∧
  v.addr < 65536 ∧ v.dlatch < 256 ∧ v.wlatch < 256 ∧
  (∀ i, i < 8 → v.ctrl i < 256) ∧ v.stat < 256 ∧
  v.tbl_col < 65536 ∧ v.tbl_pgen < 65536 ∧ v.tbl_pname < 65536 ∧
  v.tbl_sattr < 65536 ∧ v.tbl_spgen < 65536

def ValidZ80 (z : Z80Regs) : Prop :=
  z.pc < 65536 ∧ z.sp < 65536 ∧ z.ix < 65536 ∧ z.iy < 65536 ∧
  z.mem_ptr < 65536 ∧
  z.a < 256 ∧ z.f < 256 ∧ z.b < 256 ∧ z.c < 256 ∧ z.d < 256 ∧ z.e < 256 ∧
  z.h < 256 ∧ z.l < 256 ∧
  z.a_ < 256 ∧ z.f_ < 256 ∧ z.b_ < 256 ∧ z.c_ < 256 ∧ z.d_ < 256 ∧
  z.e_ < 256 ∧ z.h_ < 256 ∧ z.l_ < 256 ∧
  z.i < 256 ∧ z.r < 256 ∧ z.iff_delay < 256 ∧ z.interrupt_mode < 256 ∧
  z.irq_data < 256 ∧ z.iff1 < 256 ∧ z.iff2 < 256 ∧ z.halted < 256 ∧
  z.irq_pending < 256 ∧ z.nmi_pending < 256

def ValidState (s : CVState) : Prop :=
  ValidMemio s.memio ∧ ValidPsg s.psg ∧ ValidSgm s.sgmpsg ∧
  ValidVdp s.vdp ∧ ValidZ80 s.z80

/-! ## Zero states for concrete witnesses -/

def zeroPsg : Psg :=
  { clatch := 0, attenuator := fun _ => 0, frequency := fun _ => 0, noise := 0,
    lfsr := 0, counter := fun _ => 0, output := fun _ => 0, freqff := 0,
    buf := fun _ => 0, bufpos := 0 }

def zeroSgm : SgmPsg :=
  { reg := fun _ => 0, rlatch := 0, tperiod := fun _ => 0, tcounter := fun _ => 0,
    amplitude := fun _ => 0, nperiod := 0, ncounter := 0, nshift := 0,
    eperiod := 0, ecounter := 0, eseg := 0, estep := 0, evol := 0,
    tdisable := fun _ => 0, ndisable := fun _ => 0, emode := fun _ => 0,
    sign := fun _ => 0, buf := fun _ => 0, bufpos := 0 }

def zeroVdp : Vdp :=
  { line := 0, dot := 0, vram := fun _ => 0, addr := 0, dlatch := 0, wlatch := 0,
    ctrl := fun _ => 0, stat := 0, tbl_col := 0, tbl_pgen := 0, tbl_pname := 0,
    tbl_sattr := 0, tbl_spgen := 0, vbuf := fun _ => 0, palette := fun _ => 0,
    numscanlines := 262, nmiPulses := 0 }

def zeroZ80 : Z80Regs :=
  { pc := 0, sp := 0, ix := 0, iy := 0, mem_ptr := 0,
    a := 0, f := 0, b := 0, c := 0, d := 0, e := 0, h := 0, l := 0,
    a_ := 0, f_ := 0, b_ := 0, c_ := 0, d_ := 0, e_ := 0, h_ := 0, l_ := 0,
    i := 0, r := 0, iff_delay := 0, interrupt_mode := 0, irq_data := 0,
    iff1 := 0, iff2 := 0, halted := 0, irq_pending := 0, nmi_pending := 0 }

def zeroCV : CVState :=
  { memio := zeroMemio, psg := zeroPsg, sgmpsg := zeroSgm, vdp := zeroVdp,
    z80 := zeroZ80, extracycs := 0, delaycycs := 0, psgcycs := 0,
    numscanlines := 262 }


/-- Constant-cycle hooks on a trivial machine state, used by concrete
witnesses of the scheduler theorems. -/
def unitHooks : Hooks Nat :=
  { z80_exec := fun t => (t + 1, 1), psg_exec := fun t => (t, 1),
    sgmpsg_exec := fun t => (t, 1), vdp_exec := fun t => t,
    mixer := fun s _ _ => s }

/-! # Theorems

## List and bit-arithmetic helpers -/

/-- `getD` on an append, index inside the left list. -/
theorem getD_append_lt (l1 l2 : List Nat) (i : Nat) (h : i < l1.length) :
    (l1 ++ l2).getD i 0 = l1.getD i 0 :=
  List.getD_append l1 l2 0 i h

/-- `getD` of a mapped `List.range`. -/
theorem getD_rangeMap (g : Nat → Nat) (n i : Nat) (h : i < n) :
    ((List.range n).map g).getD i 0 = g i := by
  have h1 : i < ((List.range n).map g).length := by simpa using h
  rw [List.getD_eq_getElem ((List.range n).map g) 0 h1]
  simp

/-- Dropping the mapped range prefix of an append. -/
theorem drop_rangeMap_append (g : Nat → Nat) (n : Nat) (l : List Nat) :
    (((List.range n).map g) ++ l).drop n = l :=
  List.drop_left' (by simp)

/-- `&&&` distributes over `|||` on `Nat`. -/
theorem nat_or_and_distrib (a b c : Nat) :
    (a ||| b) &&& c = (a &&& c) ||| (b &&& c) := by
  apply Nat.eq_of_testBit_eq
  intro i
  simp [Nat.testBit_and, Nat.testBit_or, Bool.and_or_distrib_right]

/-- `&&&` distributes over `^^^` on `Nat`. -/
theorem nat_xor_and_distrib (a b c : Nat) :
    (a ^^^ b) &&& c = (a &&& c) ^^^ (b &&& c) :=
  Nat.and_xor_distrib_right

/-! ## Claim C4 — system-RAM 1 KB mirror round-trip -/



/-! ## Serial round-trip lemmas

Each pop of a freshly pushed value returns the value reduced to its C
storage width, leaving the rest of the buffer; under the type bounds the
reduction is the identity. -/

theorem pop8_rt (v : Nat) (rest : List Nat) :
    jcv_serial_pop8 (jcv_serial_push8 v ++ rest) = (v % 256, rest) := rfl

theorem pop16_rt (v : Nat) (rest : List Nat) :
    jcv_serial_pop16 (jcv_serial_push16 v ++ rest) = (v % 65536, rest) := by
  show (v % 256 + v / 256 % 256 * 256, rest) = (v % 65536, rest)
  rw [Prod.mk.injEq]
  exact ⟨by omega, rfl⟩

theorem pop32_rt (v : Nat) (rest : List Nat) :
    jcv_serial_pop32 (jcv_serial_push32 v ++ rest) = (v % 4294967296, rest) := by
  show (v % 256 + v / 256 % 256 * 256 + v / 65536 % 256 * 65536 +
      v / 16777216 % 256 * 16777216, rest) = (v % 4294967296, rest)
  rw [Prod.mk.injEq]
  exact ⟨by omega, rfl⟩

theorem popblk_rt (n : Nat) (f old : Nat → Nat) (rest : List Nat) :
    jcv_serial_popblk n (jcv_serial_pushblk n f ++ rest) old =
      (fun i => if i < n then f i % 256 else old i, rest) := by
  unfold jcv_serial_popblk jcv_serial_pushblk
  rw [Prod.mk.injEq]
  constructor
  · funext i
    split_ifs with h
    · rw [getD_append_lt _ _ _ (by simpa using h), getD_rangeMap _ _ _ h]
    · rfl
  · exact drop_rangeMap_append _ _ _

theorem popN16_rt (n : Nat) (f old : Nat → Nat) (rest : List Nat) :
    jcv_serial_popN16 n (jcv_serial_pushN16 n f ++ rest) old =
      (fun i => if i < n then f i % 65536 else old i, rest) := by
  unfold jcv_serial_popN16 jcv_serial_pushN16
  rw [Prod.mk.injEq]
  constructor
  · funext i
    split_ifs with h
    · rw [getD_append_lt _ _ _ (by simp; omega),
        getD_append_lt _ _ _ (by simp; omega),
        getD_rangeMap _ _ _ (by omega), getD_rangeMap _ _ _ (by omega),
        if_pos (show 2 * i % 2 = 0 by omega),
        if_neg (show ¬((2 * i + 1) % 2 = 0) by omega),
        show 2 * i / 2 = i by omega, show (2 * i + 1) / 2 = i by omega]
      omega
    · rfl
  · exact drop_rangeMap_append _ _ _

theorem popN32_rt (n : Nat) (f old : Nat → Nat) (rest : List Nat) :
    jcv_serial_popN32 n (jcv_serial_pushN32 n f ++ rest) old =
      (fun i => if i < n then f i % 4294967296 else old i, rest) := by
  unfold jcv_serial_popN32 jcv_serial_pushN32
  rw [Prod.mk.injEq]
  constructor
  · funext i
    split_ifs with h
    · rw [getD_append_lt _ _ _ (by simp; omega),
        getD_append_lt _ _ _ (by simp; omega),
        getD_append_lt _ _ _ (by simp; omega),
        getD_append_lt _ _ _ (by simp; omega),
        getD_rangeMap _ _ _ (by omega), getD_rangeMap _ _ _ (by omega),
        getD_rangeMap _ _ _ (by omega), getD_rangeMap _ _ _ (by omega),
        show 4 * i % 4 = 0 by omega, show (4 * i + 1) % 4 = 1 by omega,
        show (4 * i + 2) % 4 = 2 by omega, show (4 * i + 3) % 4 = 3 by omega,
        show 4 * i / 4 = i by omega, show (4 * i + 1) / 4 = i by omega,
        show (4 * i + 2) / 4 = i by omega, show (4 * i + 3) / 4 = i by omega]
      norm_num
      omega
    · rfl
  · exact drop_rangeMap_append _ _ _

theorem popMemio_rt (m : MemioSt) (hv : ValidMemio m) (rest : List Nat) :
    popMemio (pushMemio m ++ rest) m = (m, rest) := by
  obtain ⟨h1, h2, h3, h4, h5, h6⟩ := hv
  have e1 : (fun i => if i < 0x400 then m.cvsys.ram i % 256
      else m.cvsys.ram i) = m.cvsys.ram := by
    funext i; split_ifs with h
    · exact Nat.mod_eq_of_lt (h1 i h)
    · rfl
  have e2 : (fun i => if i < 0x8000 then m.cvsys.sgmram i % 256
      else m.cvsys.sgmram i) = m.cvsys.sgmram := by
    funext i; split_ifs with h
    · exact Nat.mod_eq_of_lt (h2 i h)
    · rfl
  have e6 : (fun i => if i < 4 then m.rompage i % 4294967296
      else m.rompage i) = m.rompage := by
    funext i; split_ifs with h
    · exact Nat.mod_eq_of_lt (h6 i h)
    · rfl
  simp only [pushMemio, popMemio, List.append_assoc, popblk_rt, pop8_rt,
    pop16_rt, popN32_rt, e1, e2, e6, Nat.mod_eq_of_lt h3,
    Nat.mod_eq_of_lt h4, Nat.mod_eq_of_lt h5, Function.update_eq_self]

theorem modfun_eq (n b : Nat) (f : Nat → Nat) (h : ∀ i, i < n → f i < b) :
    (fun i => if i < n then f i % b else f i) = f := by
  funext i; split_ifs with hi
  · exact Nat.mod_eq_of_lt (h i hi)
  · rfl

theorem popPsg_rt (p : Psg) (hv : ValidPsg p) (rest : List Nat) :
    popPsg (pushPsg p ++ rest) p = (p, rest) := by
  obtain ⟨h1, h2, h3, h4, h5, h6, h7, h8⟩ := hv
  simp only [pushPsg, popPsg, List.append_assoc, popblk_rt, pop8_rt,
    pop16_rt, popN16_rt, modfun_eq 4 256 p.attenuator h2,
    modfun_eq 3 65536 p.frequency h3, modfun_eq 4 65536 p.counter h6,
    modfun_eq 4 65536 p.output h7, Nat.mod_eq_of_lt h1,
    Nat.mod_eq_of_lt h4, Nat.mod_eq_of_lt h5, Nat.mod_eq_of_lt h8]

theorem popSgm_rt (p : SgmPsg) (hv : ValidSgm p) (rest : List Nat) :
    popSgm (pushSgm p ++ rest) p = (p, rest) := by
  obtain ⟨h1, h2, h3, h4, h5, h6, h7, h8, h9, h10, h11, h12, h13,
    h14, h15, h16, h17⟩ := hv
  simp only [pushSgm, popSgm, List.append_assoc, popblk_rt, pop8_rt,
    pop16_rt, pop32_rt, popN16_rt, modfun_eq 16 256 p.reg h1,
    modfun_eq 3 65536 p.tperiod h3, modfun_eq 3 65536 p.tcounter h4,
    modfun_eq 3 256 p.amplitude h5, modfun_eq 3 256 p.tdisable h14,
    modfun_eq 3 256 p.ndisable h15, modfun_eq 3 256 p.emode h16,
    modfun_eq 3 256 p.sign h17, Nat.mod_eq_of_lt h2, Nat.mod_eq_of_lt h6,
    Nat.mod_eq_of_lt h7, Nat.mod_eq_of_lt h8, Nat.mod_eq_of_lt h9,
    Nat.mod_eq_of_lt h10, Nat.mod_eq_of_lt h11, Nat.mod_eq_of_lt h12,
    Nat.mod_eq_of_lt h13]

theorem popVdp_rt (v : Vdp) (hv : ValidVdp v) (rest : List Nat) :
    popVdp (pushVdp v ++ rest) v = (v, rest) := by
  obtain ⟨h1, h2, h3, h4, h5, h6, h7, h8, h9, h10, h11, h12, h13⟩ := hv
  simp only [pushVdp, popVdp, List.append_assoc, popblk_rt, pop8_rt,
    pop16_rt, modfun_eq 0x4000 256 v.vram h3, modfun_eq 8 256 v.ctrl h7,
    Nat.mod_eq_of_lt h1, Nat.mod_eq_of_lt h2, Nat.mod_eq_of_lt h4,
    Nat.mod_eq_of_lt h5, Nat.mod_eq_of_lt h6, Nat.mod_eq_of_lt h8,
    Nat.mod_eq_of_lt h9, Nat.mod_eq_of_lt h10, Nat.mod_eq_of_lt h11,
    Nat.mod_eq_of_lt h12, Nat.mod_eq_of_lt h13]

theorem popZ80_rt (z : Z80Regs) (hv : ValidZ80 z) (rest : List Nat) :
    popZ80 (pushZ80 z ++ rest) = (z, rest) := by
  obtain ⟨h1, h2, h3, h4, h5, h6, h7, h8, h9, h10, h11, h12, h13, h14, h15,
    h16, h17, h18, h19, h20, h21, h22, h23, h24, h25, h26, h27, h28, h29,
    h30, h31⟩ := hv
  simp only [pushZ80, popZ80, List.append_assoc, pop8_rt, pop16_rt,
    Nat.mod_eq_of_lt h1, Nat.mod_eq_of_lt h2, Nat.mod_eq_of_lt h3,
    Nat.mod_eq_of_lt h4, Nat.mod_eq_of_lt h5, Nat.mod_eq_of_lt h6,
    Nat.mod_eq_of_lt h7, Nat.mod_eq_of_lt h8, Nat.mod_eq_of_lt h9,
    Nat.mod_eq_of_lt h10, Nat.mod_eq_of_lt h11, Nat.mod_eq_of_lt h12,
    Nat.mod_eq_of_lt h13, Nat.mod_eq_of_lt h14, Nat.mod_eq_of_lt h15,
    Nat.mod_eq_of_lt h16, Nat.mod_eq_of_lt h17, Nat.mod_eq_of_lt h18,
    Nat.mod_eq_of_lt h19, Nat.mod_eq_of_lt h20, Nat.mod_eq_of_lt h21,
    Nat.mod_eq_of_lt h22, Nat.mod_eq_of_lt h23, Nat.mod_eq_of_lt h24,
    Nat.mod_eq_of_lt h25, Nat.mod_eq_of_lt h26, Nat.mod_eq_of_lt h27,
    Nat.mod_eq_of_lt h28, Nat.mod_eq_of_lt h29, Nat.mod_eq_of_lt h30,
    Nat.mod_eq_of_lt h31]

theorem state_save_load_id (s : CVState) (hs : ValidState s) :
    jcv_state_load_raw (jcv_state_save_raw s) s = s := by
  obtain ⟨hm, hp, hq, hv, hz⟩ := hs
  simp only [jcv_state_save_raw, jcv_state_load_raw, List.append_assoc,
    popMemio_rt s.memio hm, popPsg_rt s.psg hp, popSgm_rt s.sgmpsg hq,
    popVdp_rt s.vdp hv]
  rw [show pushZ80 s.z80 = pushZ80 s.z80 ++ [] from (List.append_nil _).symm,
    popZ80_rt s.z80 hz]

/-- Or-ing in bits disjoint from a mask does not change the masked value. -/
theorem or_low (s x m : Nat) (h : x &&& m = 0) : (s ||| x) &&& m = s &&& m := by
  rw [nat_or_and_distrib, h, Nat.or_zero]

/-- Setting bit 7 makes the bit-7 mask read back 0x80. -/
theorem or_and_self_128 (s : Nat) : (s ||| 128) &&& 128 = 128 := by
  apply Nat.eq_of_testBit_eq
  intro j
  rw [Nat.testBit_and, Nat.testBit_or, (by norm_num : (128 : Nat) = 2 ^ 7),
    Nat.testBit_two_pow]
  rcases Nat.decEq 7 j with h | h
  · simp [h]
  · simp [h]

/-- The 5S-count status update of the sprite walk preserves bit 7. -/
theorem stat5S_bit7 (s i : Nat) :
    ((s &&& 0xe0) ||| (i &&& 0x1f)) &&& 0x80 = s &&& 0x80 := by
  rw [nat_or_and_distrib, Nat.and_assoc, Nat.and_assoc,
    (by decide : (0xe0 &&& 0x80 : Nat) = 0x80),
    (by decide : (0x1f &&& 0x80 : Nat) = 0), Nat.and_zero, Nat.or_zero]

/-- One sprite-pixel step only ever sets the C bit (0x20) in the status
register, so bit 7 is preserved. -/
theorem sprPixStep_stat (v : Vdp) (m s : Nat) (x : Int) (c pn sr : Nat)
    (st : Nat × SprAcc) (p : Nat) :
    (sprPixStep v m s x c pn sr st p).2.stat &&& 0x80 = st.2.stat &&& 0x80 := by
  simp only [sprPixStep]
  split_ifs <;> first
    | rfl
    | exact or_low _ _ _ (by decide)

/-- The sprite inner pixel loop preserves status bit 7. -/
theorem sprPixLoop_stat (v : Vdp) (m s : Nat) (x : Int) (c pn sr sp : Nat)
    (acc : SprAcc) :
    (sprPixLoop v m s x c pn sr sp acc).stat &&& 0x80 = acc.stat &&& 0x80 := by
  unfold sprPixLoop
  generalize List.range (s <<< m) = l
  have main : ∀ (l : List Nat) (st : Nat × SprAcc),
      ((l.foldl (sprPixStep v m s x c pn sr) st).2.stat &&& 0x80
        = st.2.stat &&& 0x80) := by
    intro l
    induction l with
    | nil => intro st; rfl
    | cons a t ih =>
      intro st
      rw [List.foldl_cons, ih, sprPixStep_stat]
  exact main l (sp, acc)

/-- The sprite attribute walk only sets 5S (0x40), C (0x20) and the low five
bits of the status register: bit 7 is preserved. -/
theorem sprWalk_stat (v : Vdp) (m s : Nat) (l : List Nat) (acc : SprAcc) :
    (sprWalk v m s l acc).stat &&& 0x80 = acc.stat &&& 0x80 := by
  induction l generalizing acc with
  | nil => rfl
  | cons i rest ih =>
    simp only [sprWalk]
    split_ifs <;>
      first
      | exact stat5S_bit7 _ _
      | (rw [ih]; exact stat5S_bit7 _ _)
      | (rw [or_low _ _ _ (by decide)]; exact stat5S_bit7 _ _)
      | (rw [ih, sprPixLoop_stat]; exact stat5S_bit7 _ _)

/-- `jcv_vdp_sprline` preserves status bit 7 (the INT bit). -/
theorem sprline_stat7 (v : Vdp) :
    (jcv_vdp_sprline v).stat &&& 0x80 = v.stat &&& 0x80 := by
  show (sprWalk v _ _ (List.range 32)
      { stat := v.stat, linebuf := fun _ => 0, cbuf := fun _ => 0,
        numspr := 0 }).stat &&& 0x80 = v.stat &&& 0x80
  rw [sprWalk_stat]

/-- `jcv_vdp_bdline` only paints the canvas. -/
theorem bdline_frame (v : Vdp) (l : Nat) :
    (jcv_vdp_bdline v l).stat = v.stat ∧
    (jcv_vdp_bdline v l).nmiPulses = v.nmiPulses ∧
    (jcv_vdp_bdline v l).line = v.line ∧
    (jcv_vdp_bdline v l).ctrl = v.ctrl ∧
    (jcv_vdp_bdline v l).numscanlines = v.numscanlines :=
  ⟨rfl, rfl, rfl, rfl, rfl⟩

/-- `jcv_vdp_bgline` only assigns canvas pixels and the dot counter. -/
theorem bgline_frame (v : Vdp) :
    (jcv_vdp_bgline v).stat = v.stat ∧
    (jcv_vdp_bgline v).nmiPulses = v.nmiPulses ∧
    (jcv_vdp_bgline v).line = v.line ∧
    (jcv_vdp_bgline v).ctrl = v.ctrl ∧
    (jcv_vdp_bgline v).numscanlines = v.numscanlines := by
  simp only [jcv_vdp_bgline]
  split_ifs <;> exact ⟨rfl, rfl, rfl, rfl, rfl⟩

/-- `jcv_vdp_sprline` only assigns `stat` and `vbuf`. -/
theorem sprline_frame (v : Vdp) :
    (jcv_vdp_sprline v).nmiPulses = v.nmiPulses ∧
    (jcv_vdp_sprline v).line = v.line ∧
    (jcv_vdp_sprline v).ctrl = v.ctrl ∧
    (jcv_vdp_sprline v).numscanlines = v.numscanlines :=
  ⟨rfl, rfl, rfl, rfl⟩

/-- The drawing stage preserves status bit 7, the NMI count, the line
counter, the control registers and the scanline count. -/
theorem render_stage_frame (v : Vdp) :
    (jcv_vdp_render_stage v).stat &&& 0x80 = v.stat &&& 0x80 ∧
    (jcv_vdp_render_stage v).nmiPulses = v.nmiPulses ∧
    (jcv_vdp_render_stage v).line = v.line ∧
    (jcv_vdp_render_stage v).ctrl = v.ctrl ∧
    (jcv_vdp_render_stage v).numscanlines = v.numscanlines := by
  obtain ⟨b1, b2, b3, b4, b5⟩ := bgline_frame v
  simp only [jcv_vdp_render_stage]
  split_ifs with h1 h2 h3
  · obtain ⟨s2, s3, s4, s5⟩ := sprline_frame (jcv_vdp_bgline v)
    exact ⟨by rw [sprline_stat7, b1], by rw [s2, b2], by rw [s3, b3],
      by rw [s4, b4], by rw [s5, b5]⟩
  · exact ⟨by rw [b1], b2, b3, b4, b5⟩
  · obtain ⟨d1, d2, d3, d4, d5⟩ := bdline_frame v (v.line + 8)
    exact ⟨by rw [d1], d2, d3, d4, d5⟩
  · exact ⟨rfl, rfl, rfl, rfl, rfl⟩

/-- The end-of-frame overscan painting only touches the canvas. -/
theorem wrap_bands_frame (v : Vdp) :
    (jcv_vdp_wrap_bands v).stat = v.stat ∧
    (jcv_vdp_wrap_bands v).nmiPulses = v.nmiPulses := by
  unfold jcv_vdp_wrap_bands
  generalize List.range 8 = l
  induction l generalizing v with
  | nil => exact ⟨rfl, rfl⟩
  | cons a t ih =>
    rw [List.foldl_cons]
    obtain ⟨i1, i2⟩ := ih (jcv_vdp_bdline (jcv_vdp_bdline v a) (a + 200))
    exact ⟨by rw [i1]; rfl, by rw [i2]; rfl⟩

set_option linter.unreachableTactic false in
set_option linter.unusedTactic false in
/-- The VBlank edge of the post-render part of `jcv_vdp_exec`: entering line
192 sets INT and pulses the NMI exactly under the GINT/¬INT guard; any other
line leaves the NMI count unchanged. -/
theorem exec_post_edge (r : Vdp) :
    (r.line = 191 →
      (jcv_vdp_exec_post r).stat &&& 0x80 = 0x80 ∧
      (jcv_vdp_exec_post r).nmiPulses =
        r.nmiPulses +
          (if r.ctrl 1 &&& 0x20 ≠ 0 ∧ r.stat &&& 0x80 = 0 then 1 else 0)) ∧
    (r.line ≠ 191 → (jcv_vdp_exec_post r).nmiPulses = r.nmiPulses) := by
  simp only [jcv_vdp_exec_post, jcv_vdp_gint, jcv_vdp_int]
  constructor
  · intro h
    split_ifs with h1 h2 h3 h4 h5 <;>
      refine ⟨?_, ?_⟩ <;>
      first
      | (exact absurd (by rw [h]) h1)
      | (rw [(wrap_bands_frame _).1]; exact or_and_self_128 r.stat)
      | (exact or_and_self_128 r.stat)
      | ((rw [(wrap_bands_frame _).2]) <;> exact rfl)
      | (exact rfl)
  · intro h
    split_ifs with h1 h2 h3 <;>
      first
      | (exact absurd (by omega : r.line = 191) h)
      | ((rw [(wrap_bands_frame _).2]) <;> exact rfl)
      | (exact rfl)

/-- C4: for every byte `b` and every address `a ∈ [0x6000, 0x8000)` with both
`sgm_lower` and `sgm_upper` clear, `mem_write(a, b)` followed by
`mem_read(a ^ k)` returns `b` for every `k` with `k &&& 0x3FF = 0` such that
`a ^ k` is still in `[0x6000, 0x8000)`: both accesses address system RAM at
offset `addr &&& 0x3FF`. -/
theorem C4_ram_mirror_roundtrip (m : MemioSt) (a b k : Nat)
    (hL : m.sgm_lower = 0) (hU : m.sgm_upper = 0)
    (ha1 : 0x6000 ≤ a) (ha2 : a < 0x8000)
    (hk : k &&& 0x3ff = 0)
    (hx1 : 0x6000 ≤ a ^^^ k) (hx2 : a ^^^ k < 0x8000)
    (_hb : b < 256) :
    (jcv_mem_rd (jcv_mem_wr m a b) (a ^^^ k)).1 = b := by
  have hmask : (a ^^^ k) &&& 0x3ff = a &&& 0x3ff := by
    rw [nat_xor_and_distrib, hk, Nat.xor_zero]
  have hwr : jcv_mem_wr m a b =
      { m with cvsys :=
          { m.cvsys with ram := Function.update m.cvsys.ram (a &&& 0x3ff) b } } := by
    unfold jcv_mem_wr
    rw [if_neg (by simp [hL]), if_neg (by simp [hU]), if_pos ⟨by omega, ha2⟩]
  rw [hwr]
  unfold jcv_mem_rd
  rw [if_neg (by simp [hL]), if_neg (by omega), if_neg (by simp [hU]),
    if_neg (by omega), if_pos hx2]
  rw [hmask]
  exact Function.update_same (a &&& 0x3ff) b m.cvsys.ram

/-- Witness for C4 at a concrete input: `a = 0x6123`, `b = 0xab`,
`k = 0x1800` (so `a ^^^ k = 0x7923`). -/
theorem C4_ram_mirror_roundtrip_witness :
    (zeroMemio.sgm_lower = 0 ∧ zeroMemio.sgm_upper = 0 ∧
     (0x1800 &&& 0x3ff : Nat) = 0 ∧ (0x6123 ^^^ 0x1800 : Nat) = 0x7923) ∧
    (jcv_mem_rd (jcv_mem_wr zeroMemio 0x6123 0xab) (0x6123 ^^^ 0x1800)).1 = 0xab :=
  ⟨⟨rfl, rfl, by decide, by decide⟩,
   C4_ram_mirror_roundtrip zeroMemio 0x6123 0xab 0x1800 rfl rfl
     (by decide) (by decide) (by decide) (by decide) (by decide) (by decide)⟩

/-! ## Claim C3 — Mega Cart bank select as a read side effect -/

/-- C3: for every memory read with the `megacart` flag set and
`addr ≥ 0xFFC0`, the read sets `rompage[2] = (addr &&& ((rompages >>> 1) - 1))
<<< 14` and `rompage[3] = rompage[2] + 0x2000`, leaves `rompage[0..1]` (the
permanently mapped top 16 KB) unchanged, and the value returned by that same
read already uses the new mapping (the address lies in the fourth 8 KB
window, so it reads through the new `rompage[3]`).  Subsequent reads of any
other cartridge address use the updated page table.  Loading a 128 KB ROM
with a valid header marks it Mega (16 pages) and maps `rompage =
(0x1c000, 0x1e000, 0, 0x2000)`, so `0x8000–0xBFFF` exposes the top 16 KB. -/
theorem C3_megacart_bank_select (m : MemioSt) (addr : Nat)
    (hmc : m.megacart ≠ 0) (h1 : 0xffc0 ≤ addr) (h2 : addr ≤ 0xffff)
    (hrs : 0x8000 < m.romsize) :
    ((jcv_mem_rd m addr).2.rompage 2 = (addr &&& ((m.rompages >>> 1) - 1)) <<< 14 ∧
     (jcv_mem_rd m addr).2.rompage 3 =
       (addr &&& ((m.rompages >>> 1) - 1)) <<< 14 + 0x2000 ∧
     (jcv_mem_rd m addr).2.rompage 0 = m.rompage 0 ∧
     (jcv_mem_rd m addr).2.rompage 1 = m.rompage 1 ∧
     (jcv_mem_rd m addr).1 =
       m.romdata ((addr &&& ((m.rompages >>> 1) - 1)) <<< 14 + 0x2000 +
         (addr &&& 0x1fff))) ∧
    (∀ a2, 0x8000 ≤ a2 → a2 < 0xffc0 →
      (jcv_mem_rd (jcv_mem_rd m addr).2 a2).1 =
        m.romdata ((jcv_mem_rd m addr).2.rompage ((a2 >>> 13) - 4) +
          (a2 &&& 0x1fff))) ∧
    (∀ dat : Nat → Nat, dat 0x1c000 = 0x55 → dat 0x1c001 = 0xaa →
      (jcv_rom_load m dat 0x20000).1 = 1 ∧
      (jcv_rom_load m dat 0x20000).2.megacart = 1 ∧
      (jcv_rom_load m dat 0x20000).2.rompages = 16 ∧
      (jcv_rom_load m dat 0x20000).2.rompage 0 = 0x1c000 ∧
      (jcv_rom_load m dat 0x20000).2.rompage 1 = 0x1e000 ∧
      (jcv_rom_load m dat 0x20000).2.rompage 2 = 0 ∧
      (jcv_rom_load m dat 0x20000).2.rompage 3 = 0x2000) := by
  have hpage : addr >>> 13 = 7 := by
    rw [Nat.shiftRight_eq_div_pow]
    omega
  have hrd : jcv_mem_rd m addr =
      (m.romdata ((addr &&& ((m.rompages >>> 1) - 1)) <<< 14 + 0x2000 +
        (addr &&& 0x1fff)),
       { m with rompage :=
                  Function.update
                    (Function.update m.rompage 2
                      ((addr &&& ((m.rompages >>> 1) - 1)) <<< 14))
                    3 ((addr &&& ((m.rompages >>> 1) - 1)) <<< 14 + 0x2000) }) := by
    unfold jcv_mem_rd
    rw [if_neg (by rintro ⟨-, h⟩; omega), if_neg (by omega),
      if_neg (by rintro ⟨-, h⟩; omega), if_neg (by omega), if_neg (by omega)]
    split_ifs with hA
    · simp only []
      rw [if_neg (by intro hcon; exact absurd (hcon : m.romsize + 0x8000 ≤ addr) (by omega))]
      rw [hpage]
      norm_num [Function.update_same]
    · exact absurd ⟨hmc, h1⟩ hA
  refine ⟨⟨?_, ?_, ?_, ?_, ?_⟩, ?_, ?_⟩
  · rw [hrd]
    simp [Function.update_noteq]
  · rw [hrd]
    simp [Function.update_same]
  · rw [hrd]
    simp [Function.update_noteq]
  · rw [hrd]
    simp [Function.update_noteq]
  · rw [hrd]
  · intro a2 ha21 ha22
    rw [hrd]
    unfold jcv_mem_rd
    rw [if_neg (by rintro ⟨-, h⟩; omega), if_neg (by omega),
      if_neg (by rintro ⟨-, h⟩; omega), if_neg (by omega), if_neg (by omega)]
    split_ifs with hA
    · obtain ⟨-, h⟩ := hA
      omega
    · simp only []
      rw [if_neg (by intro hcon; exact absurd (hcon : m.romsize + 0x8000 ≤ a2) (by omega))]
  · intro dat hd1 hd2
    unfold jcv_rom_load
    rw [if_pos (by norm_num)]
    have hb1 : (0x20000 - 0x4000 : Nat) = 0x1c000 := by norm_num
    have hb2 : (0x20000 - 0x4000 + 1 : Nat) = 0x1c001 := by norm_num
    rw [hb1, hb2, hd1, hd2]
    rw [if_neg (by decide)]
    refine ⟨rfl, rfl, by norm_num, ?_, ?_, ?_, ?_⟩ <;> simp

/-- Witness for C3 at a concrete input: a 128 KB Mega Cart and the bank
select read `read(0xFFC1)` of the spec's scenario. -/
theorem C3_megacart_bank_select_witness :
    (({ zeroMemio with megacart := 1, romsize := 0x20000, rompages := 16 } :
        MemioSt).megacart ≠ 0 ∧
     (0xffc0 : Nat) ≤ 0xffc1 ∧ (0xffc1 : Nat) ≤ 0xffff ∧
     (0x8000 : Nat) <
       ({ zeroMemio with megacart := 1, romsize := 0x20000, rompages := 16 } :
         MemioSt).romsize) ∧
    (jcv_mem_rd { zeroMemio with megacart := 1, romsize := 0x20000, rompages := 16 }
        0xffc1).2.rompage 2 =
      (0xffc1 &&& ((16 >>> 1) - 1)) <<< 14 :=
  ⟨⟨by decide, by decide, by decide, by decide⟩,
   (C3_megacart_bank_select
      { zeroMemio with megacart := 1, romsize := 0x20000, rompages := 16 }
      0xffc1 (by decide) (by decide) (by decide) (by decide)).1.1⟩

/-! ## Claim C7 — controller read complement -/

/-- `(port & 0x02) >> 1` (the source form of the port index) equals
`(port >> 1) & 1` (the claim's form). -/
theorem port_bit1 (x : Nat) : (x &&& 2) >>> 1 = (x >>> 1) &&& 1 := by
  apply Nat.eq_of_testBit_eq
  intro i
  simp only [Nat.testBit_shiftRight, Nat.testBit_and]
  match i with
  | 0 =>
    have h2 : Nat.testBit 2 1 = true := by decide
    have h1 : Nat.testBit 1 0 = true := by decide
    simp [h1, h2]
  | i + 1 =>
    have h2 : Nat.testBit 2 (1 + (i + 1)) = false :=
      Nat.testBit_eq_false_of_lt (by
        have h4 : (4:Nat) ≤ 2 ^ (1 + (i + 1)) := by
          calc (4:Nat) = 2 ^ 2 := by norm_num
          _ ≤ 2 ^ (1 + (i + 1)) := Nat.pow_le_pow_right (by norm_num) (by omega)
        omega)
    have h1 : Nat.testBit 1 (i + 1) = false :=
      Nat.testBit_eq_false_of_lt (by
        have h4 : (2:Nat) ≤ 2 ^ (i + 1) := by
          calc (2:Nat) = 2 ^ 1 := by norm_num
          _ ≤ 2 ^ (i + 1) := Nat.pow_le_pow_right (by norm_num) (by omega)
        omega)
    simp [h1, h2]

/-- C7: for every I/O read of a port in the 0xE0 band, with
`p = (port >>> 1) &&& 1`, the emulator invokes the input callback, caches
its 16-bit result `v` in `ctrl[p]`, and returns `~((v >>> 8) &&& 0xFF) &&&
0xFF` when `cseg = 1` and `~(v &&& 0xFF) &&& 0xFF` when `cseg = 0` (the
8-bit complement is `x ^^^ 0xFF`). -/
theorem C7_controller_read_complement (st : CVState) (port : Nat)
    (hp : port &&& 0xe0 = 0xe0)
    (hv : st.memio.inputcb ((port >>> 1) &&& 1) < 65536) :
    (jcv_io_rd st port).2.memio.cvsys.ctrl ((port >>> 1) &&& 1) =
      st.memio.inputcb ((port >>> 1) &&& 1) ∧
    (st.memio.cvsys.cseg = 1 →
      (jcv_io_rd st port).1 =
        ((st.memio.inputcb ((port >>> 1) &&& 1) >>> 8) &&& 0xff) ^^^ 0xff) ∧
    (st.memio.cvsys.cseg = 0 →
      (jcv_io_rd st port).1 =
        (st.memio.inputcb ((port >>> 1) &&& 1) &&& 0xff) ^^^ 0xff) := by
  have hv' : st.memio.inputcb (port >>> 1 % 2) < 65536 := by
    rwa [Nat.and_one_is_mod] at hv
  unfold jcv_io_rd
  rw [if_neg (by simp [hp]), if_pos hp, port_bit1]
  refine ⟨?_, ?_, ?_⟩
  · simp [Function.update_same, Nat.mod_eq_of_lt hv']
  · intro hc
    simp [hc, Function.update_same, Nat.mod_eq_of_lt hv']
  · intro hc
    simp [hc, Function.update_same, Nat.mod_eq_of_lt hv']

/-- Witness for C7 at port 0xFC with `cseg = 0` and callback value
`0x8080 ||| CV_INPUT_5 = 0x808c` (spec keypad scenario: the returned byte is
`~0x8c &&& 0xff = 0x73`). -/
theorem C7_controller_read_complement_witness :
    ((0xfc &&& 0xe0 : Nat) = 0xe0 ∧
     ({ zeroCV with memio := { zeroMemio with inputcb := fun _ => 0x808c } } :
        CVState).memio.inputcb ((0xfc >>> 1) &&& 1) < 65536) ∧
    (({ zeroCV with memio := { zeroMemio with inputcb := fun _ => 0x808c } } :
        CVState).memio.cvsys.cseg = 0 →
      (jcv_io_rd { zeroCV with memio := { zeroMemio with inputcb := fun _ => 0x808c } }
          0xfc).1 = (0x808c &&& 0xff) ^^^ 0xff) :=
  ⟨⟨by decide, by decide⟩,
   (C7_controller_read_complement
      { zeroCV with memio := { zeroMemio with inputcb := fun _ => 0x808c } }
      0xfc (by decide) (by decide)).2.2⟩

/-! ## Claim C9 — SGM RAM init fill (corrected)

The claim says every byte of the 32 KB SGM RAM equals 0xFF after init.  The
source executes `memset(cvsys.sgmram, 0xff, 0x6000)`, filling only the first
0x6000 bytes (24 KB); bytes 0x6000–0x7FFF keep their previous contents
(zero on a fresh C context).  The counterexample exhibits index 0x6000; the
amended theorem states the actual fill range, and that the part of the
overlay the claim's scenario exercises (`sgm_lower`, addresses < 0x2000)
does read 0xFF before any write. -/

/-- C9 counterexample: on the all-zero context, `jcv_memio_init` leaves SGM
RAM byte 0x6000 at 0, not 0xFF.  (Bytes 0x6000–0x7FFF are reachable through
the `sgm_upper` overlay, so the claimed all-0xFF fill is refuted.) -/
theorem C9_sgmram_init_fill_counterexample :
    (jcv_memio_init zeroMemio (fun _ => 0)).cvsys.sgmram 0x6000 ≠ 0xff := by
  decide

/-- C9 (amended): `jcv_memio_init` fills SGM RAM bytes 0x0000–0x5FFF with
0xFF and leaves bytes 0x6000–0x7FFF unchanged; consequently, after arming
`sgm_lower` via `io_write(0x7F, 0xFD)`, every read of an address < 0x2000
returns 0xFF (before any write), as in the spec's scenario. -/
theorem C9_sgmram_init_fill (m : MemioSt) (rand : Nat → Nat) :
    (∀ i, i < 0x6000 → (jcv_memio_init m rand).cvsys.sgmram i = 0xff) ∧
    (∀ i, 0x6000 ≤ i → (jcv_memio_init m rand).cvsys.sgmram i = m.cvsys.sgmram i) ∧
    (∀ st : CVState, ∀ addr, addr < 0x2000 →
      (jcv_mem_rd
        (jcv_io_wr { st with memio := jcv_memio_init m rand } 0x7f 0xfd).memio
        addr).1 = 0xff) := by
  refine ⟨?_, ?_, ?_⟩
  · intro i hi
    simp [jcv_memio_init, hi]
  · intro i hi
    simp [jcv_memio_init]
    omega
  · intro st addr haddr
    unfold jcv_io_wr
    rw [if_neg (by decide), if_neg (by decide), if_neg (by decide),
      if_neg (by decide), if_neg (by decide), if_neg (by decide),
      if_neg (by decide), if_pos rfl]
    unfold jcv_mem_rd
    rw [if_pos ⟨(by decide : ((0xfd &&& 2 : Nat) ^^^ 2) ≠ 0), haddr⟩]
    simp [jcv_memio_init]
    omega

/-- Witness for C9's amended theorem at concrete inputs. -/
theorem C9_sgmram_init_fill_witness :
    ((0x123 : Nat) < 0x6000 ∧
      (jcv_memio_init zeroMemio (fun _ => 0)).cvsys.sgmram 0x123 = 0xff) ∧
    ((0x6000 : Nat) ≤ 0x7000 ∧
      (jcv_memio_init zeroMemio (fun _ => 0)).cvsys.sgmram 0x7000 =
        zeroMemio.cvsys.sgmram 0x7000) ∧
    ((0 : Nat) < 0x2000 ∧
      (jcv_mem_rd
        (jcv_io_wr { zeroCV with memio := jcv_memio_init zeroMemio (fun _ => 0) }
          0x7f 0xfd).memio 0).1 = 0xff) :=
  ⟨⟨by decide, (C9_sgmram_init_fill zeroMemio (fun _ => 0)).1 0x123 (by decide)⟩,
   ⟨by decide, (C9_sgmram_init_fill zeroMemio (fun _ => 0)).2.1 0x7000 (by decide)⟩,
   ⟨by decide, (C9_sgmram_init_fill zeroMemio (fun _ => 0)).2.2 zeroCV 0 (by decide)⟩⟩

/-! ## Claim C6 — VDP status-read side effects -/

/-- C6: every status-register read returns the status value as it was before
the read, clears exactly INT (0x80), 5S (0x40) and C (0x20) while preserving
the FS field (low 5 bits), and clears the control write latch; every
VRAM-data read also clears the write latch; and after either read the next
control write takes the first-byte path of a new two-step pair (it sets the
latch, stores the low address byte and the data latch, and performs no
register write or VRAM access). -/
theorem C6_vdp_status_read_side_effects (v : Vdp) (d : Nat) :
    (jcv_vdp_rd_stat v).1 = v.stat ∧
    (jcv_vdp_rd_stat v).2.stat = v.stat &&& 0x1f ∧
    (jcv_vdp_rd_stat v).2.stat &&& 0x80 = 0 ∧
    (jcv_vdp_rd_stat v).2.stat &&& 0x40 = 0 ∧
    (jcv_vdp_rd_stat v).2.stat &&& 0x20 = 0 ∧
    (jcv_vdp_rd_stat v).2.stat &&& 0x1f = v.stat &&& 0x1f ∧
    (jcv_vdp_rd_stat v).2.wlatch = 0 ∧
    (jcv_vdp_rd_data v).2.wlatch = 0 ∧
    jcv_vdp_wr_ctrl (jcv_vdp_rd_stat v).2 d =
      { (jcv_vdp_rd_stat v).2 with
        wlatch := 1,
        addr := ((jcv_vdp_rd_stat v).2.addr &&& 0x3f00) ||| d,
        dlatch := d } ∧
    jcv_vdp_wr_ctrl (jcv_vdp_rd_data v).2 d =
      { (jcv_vdp_rd_data v).2 with
        wlatch := 1,
        addr := ((jcv_vdp_rd_data v).2.addr &&& 0x3f00) ||| d,
        dlatch := d } := by
  refine ⟨rfl, rfl, ?_, ?_, ?_, ?_, rfl, by simp [jcv_vdp_rd_data, jcv_vdp_addr_inc], ?_, ?_⟩
  · show v.stat &&& 0x1f &&& 0x80 = 0
    rw [Nat.and_assoc, (by decide : (0x1f &&& 0x80 : Nat) = 0), Nat.and_zero]
  · show v.stat &&& 0x1f &&& 0x40 = 0
    rw [Nat.and_assoc, (by decide : (0x1f &&& 0x40 : Nat) = 0), Nat.and_zero]
  · show v.stat &&& 0x1f &&& 0x20 = 0
    rw [Nat.and_assoc, (by decide : (0x1f &&& 0x20 : Nat) = 0), Nat.and_zero]
  · show v.stat &&& 0x1f &&& 0x1f = v.stat &&& 0x1f
    rw [Nat.and_assoc, (by decide : (0x1f &&& 0x1f : Nat) = 0x1f)]
  · unfold jcv_vdp_wr_ctrl
    rw [if_neg (by simp [jcv_vdp_rd_stat])]
  · unfold jcv_vdp_wr_ctrl
    rw [if_neg (by simp [jcv_vdp_rd_data, jcv_vdp_addr_inc])]



/-! ## Scheduler loop lemmas -/

/-- The PSG divider loop does not touch the cycle accumulator. -/
theorem psgCatch_linecycs {σ : Type} (hk : Hooks σ) (c : Nat) (a : LineAcc σ) :
    (psgCatch hk c a).linecycs = a.linecycs := by
  induction c generalizing a with
  | zero => rfl
  | succ c ih =>
    simp only [psgCatch]
    split_ifs <;> rw [ih]

/-- The PSG divider loop over `c` cycles: starting from a divider below 16,
it ends at `(psgcycs + c) % 16` and fires both PSGs (one sample each, given
hooks that report one sample per call) exactly `(psgcycs + c) / 16` times. -/
theorem psgCatch_spec {σ : Type} (hk : Hooks σ)
    (Hp : ∀ t, (hk.psg_exec t).2 = 1)
    (Hs : ∀ t, (hk.sgmpsg_exec t).2 = 1)
    (c : Nat) (a : LineAcc σ) (h : a.psgcycs < 16) :
    (psgCatch hk c a).psgcycs = (a.psgcycs + c) % 16 ∧
    (psgCatch hk c a).psgcalls = a.psgcalls + (a.psgcycs + c) / 16 ∧
    (psgCatch hk c a).sgmcalls = a.sgmcalls + (a.psgcycs + c) / 16 ∧
    (psgCatch hk c a).psgsamps = a.psgsamps + (a.psgcycs + c) / 16 ∧
    (psgCatch hk c a).sgmsamps = a.sgmsamps + (a.psgcycs + c) / 16 ∧
    (psgCatch hk c a).linecycs = a.linecycs := by
  induction c generalizing a with
  | zero =>
    rw [psgCatch]
    exact ⟨by omega, by omega, by omega, by omega, by omega, rfl⟩
  | succ c ih =>
    simp only [psgCatch]
    split_ifs with hc
    · rw [Hp, Hs]
      obtain ⟨i1, i2, i3, i4, i5, i6⟩ :=
        ih
          { a with
            s := (hk.sgmpsg_exec (hk.psg_exec a.s).1).1,
            psgcycs := 0,
            psgsamps := a.psgsamps + 1,
            sgmsamps := a.sgmsamps + 1,
            psgcalls := a.psgcalls + 1,
            sgmcalls := a.sgmcalls + 1 }
          (show (0 : Nat) < 16 by decide)
      refine ⟨?_, ?_, ?_, ?_, ?_, ?_⟩
      · rw [i1]; show (0 + c) % 16 = (a.psgcycs + (c + 1)) % 16; omega
      · rw [i2]
        show a.psgcalls + 1 + (0 + c) / 16 = a.psgcalls + (a.psgcycs + (c + 1)) / 16
        omega
      · rw [i3]
        show a.sgmcalls + 1 + (0 + c) / 16 = a.sgmcalls + (a.psgcycs + (c + 1)) / 16
        omega
      · rw [i4]
        show a.psgsamps + 1 + (0 + c) / 16 = a.psgsamps + (a.psgcycs + (c + 1)) / 16
        omega
      · rw [i5]
        show a.sgmsamps + 1 + (0 + c) / 16 = a.sgmsamps + (a.psgcycs + (c + 1)) / 16
        omega
      · rw [i6]
    · obtain ⟨i1, i2, i3, i4, i5, i6⟩ :=
        ih { a with psgcycs := a.psgcycs + 1 } (show a.psgcycs + 1 < 16 by omega)
      refine ⟨?_, ?_, ?_, ?_, ?_, ?_⟩
      · rw [i1]; show (a.psgcycs + 1 + c) % 16 = (a.psgcycs + (c + 1)) % 16; omega
      · rw [i2]
        show a.psgcalls + (a.psgcycs + 1 + c) / 16 =
          a.psgcalls + (a.psgcycs + (c + 1)) / 16
        omega
      · rw [i3]
        show a.sgmcalls + (a.psgcycs + 1 + c) / 16 =
          a.sgmcalls + (a.psgcycs + (c + 1)) / 16
        omega
      · rw [i4]
        show a.psgsamps + (a.psgcycs + 1 + c) / 16 =
          a.psgsamps + (a.psgcycs + (c + 1)) / 16
        omega
      · rw [i5]
        show a.sgmsamps + (a.psgcycs + 1 + c) / 16 =
          a.sgmsamps + (a.psgcycs + (c + 1)) / 16
        omega
      · rw [i6]

/-- One loop iteration adds the reported instruction cycles to `linecycs`. -/
theorem lineBody_linecycs {σ : Type} (hk : Hooks σ) (a : LineAcc σ) :
    (lineBody hk a).linecycs = a.linecycs + (hk.z80_exec a.s).2 := by
  simp only [lineBody]
  rw [psgCatch_linecycs]

/-- One iteration of the scanline loop: cycle accounting plus the divider
bookkeeping of `psgCatch` for the reported instruction cycles. -/
theorem lineBody_spec {σ : Type} (hk : Hooks σ)
    (Hp : ∀ t, (hk.psg_exec t).2 = 1)
    (Hs : ∀ t, (hk.sgmpsg_exec t).2 = 1)
    (a : LineAcc σ) (h : a.psgcycs < 16) :
    (lineBody hk a).linecycs = a.linecycs + (hk.z80_exec a.s).2 ∧
    (lineBody hk a).psgcycs = (a.psgcycs + (hk.z80_exec a.s).2) % 16 ∧
    (lineBody hk a).psgcalls = a.psgcalls + (a.psgcycs + (hk.z80_exec a.s).2) / 16 ∧
    (lineBody hk a).sgmcalls = a.sgmcalls + (a.psgcycs + (hk.z80_exec a.s).2) / 16 ∧
    (lineBody hk a).psgsamps = a.psgsamps + (a.psgcycs + (hk.z80_exec a.s).2) / 16 ∧
    (lineBody hk a).sgmsamps = a.sgmsamps + (a.psgcycs + (hk.z80_exec a.s).2) / 16 ∧
    (lineBody hk a).psgcycs < 16 := by
  obtain ⟨i1, i2, i3, i4, i5, i6⟩ :=
    psgCatch_spec hk Hp Hs (hk.z80_exec a.s).2
      { a with
        s := (hk.z80_exec a.s).1,
        linecycs := a.linecycs + (hk.z80_exec a.s).2 }
      (show a.psgcycs < 16 from h)
  simp only [lineBody]
  refine ⟨?_, ?_, ?_, ?_, ?_, ?_, ?_⟩
  · rw [i6]
  · rw [i1]
  · rw [i2]
  · rw [i3]
  · rw [i4]
  · rw [i5]
  · rw [i1]; omega

/-- Zero iterations of the scanline loop body. -/
theorem lineIter_zero {σ : Type} (hk : Hooks σ) (a : LineAcc σ) :
    lineIter hk 0 a = a := rfl

/-- Unfolding one iteration of the scanline loop body. -/
theorem lineIter_succ {σ : Type} (hk : Hooks σ) (n : Nat) (a : LineAcc σ) :
    lineIter hk (n + 1) a = lineIter hk n (lineBody hk a) :=
  Function.iterate_succ_apply (lineBody hk) n a

/-- `n` iterations of the scanline loop body: some total cycle count `d` is
accumulated, and the PSG divider fires both PSGs exactly `(psgcycs + d) / 16`
times, carrying the divider remainder. -/
theorem lineIter_spec {σ : Type} (hk : Hooks σ)
    (Hp : ∀ t, (hk.psg_exec t).2 = 1)
    (Hs : ∀ t, (hk.sgmpsg_exec t).2 = 1)
    (n : Nat) (a : LineAcc σ) (h : a.psgcycs < 16) :
    ∃ d, (lineIter hk n a).linecycs = a.linecycs + d ∧
      (lineIter hk n a).psgcycs = (a.psgcycs + d) % 16 ∧
      (lineIter hk n a).psgcalls = a.psgcalls + (a.psgcycs + d) / 16 ∧
      (lineIter hk n a).sgmcalls = a.sgmcalls + (a.psgcycs + d) / 16 ∧
      (lineIter hk n a).psgsamps = a.psgsamps + (a.psgcycs + d) / 16 ∧
      (lineIter hk n a).sgmsamps = a.sgmsamps + (a.psgcycs + d) / 16 ∧
      (lineIter hk n a).psgcycs < 16 := by
  induction n generalizing a with
  | zero =>
    exact ⟨0, by rw [lineIter_zero]; omega, by rw [lineIter_zero]; omega,
      by rw [lineIter_zero]; omega, by rw [lineIter_zero]; omega,
      by rw [lineIter_zero]; omega, by rw [lineIter_zero]; omega,
      by rw [lineIter_zero]; omega⟩
  | succ n ih =>
    obtain ⟨b1, b2, b3, b4, b5, b6, b7⟩ := lineBody_spec hk Hp Hs a h
    obtain ⟨d1, j1, j2, j3, j4, j5, j6, j7⟩ := ih (lineBody hk a) b7
    refine ⟨(hk.z80_exec a.s).2 + d1, ?_, ?_, ?_, ?_, ?_, ?_, ?_⟩ <;>
      rw [lineIter_succ] <;>
      first
      | (rw [j1, b1]; omega)
      | (rw [j2, b2]; omega)
      | (rw [j3, b3, b2]; omega)
      | (rw [j4, b4, b2]; omega)
      | (rw [j5, b5, b2]; omega)
      | (rw [j6, b6, b2]; omega)

/-- The `while (linecycs < reqcycs)` loop terminates whenever every
instruction reports at least one cycle and the fuel covers the missing
cycles; the result is the first iterate of the loop body meeting the cycle
budget. -/
theorem lineLoop_spec {σ : Type} (hk : Hooks σ)
    (Hcyc : ∀ t, 1 ≤ (hk.z80_exec t).2) (req : Nat) :
    ∀ (fuel : Nat) (a : LineAcc σ), req ≤ a.linecycs + fuel →
    ∃ n, lineLoop hk req fuel a = some (lineIter hk n a) ∧
      req ≤ (lineIter hk n a).linecycs ∧
      ∀ m, m < n → (lineIter hk m a).linecycs < req := by
  intro fuel
  induction fuel with
  | zero =>
    intro a hf
    refine ⟨0, ?_, ?_, ?_⟩
    · rw [lineLoop]
      rw [if_pos (show a.linecycs ≥ req by omega), lineIter_zero]
    · rw [lineIter_zero]; omega
    · intro m hm; omega
  | succ f ih =>
    intro a hf
    by_cases hreq : req ≤ a.linecycs
    · refine ⟨0, ?_, ?_, ?_⟩
      · rw [lineLoop]
        rw [if_pos (show a.linecycs ≥ req from hreq), lineIter_zero]
      · rw [lineIter_zero]; omega
      · intro m hm; omega
    · have hstep : a.linecycs + 1 ≤ (lineBody hk a).linecycs := by
        rw [lineBody_linecycs]
        have := Hcyc a.s
        omega
      obtain ⟨n, e1, e2, e3⟩ := ih (lineBody hk a) (by omega)
      refine ⟨n + 1, ?_, ?_, ?_⟩
      · rw [lineLoop]
        rw [if_neg (show ¬(a.linecycs ≥ req) by omega), lineIter_succ]
        exact e1
      · rw [lineIter_succ]; exact e2
      · intro m hm
        cases m with
        | zero => rw [lineIter_zero]; omega
        | succ k => rw [lineIter_succ]; exact e3 k (by omega)

/-- The scanline `for` loop of `jcv_exec`: it terminates, calls `vdp_exec`
exactly once per scanline, and fires both PSGs exactly once per 16 executed
Z80 cycles, carrying the divider across scanlines. -/
theorem frameLoop_spec {σ : Type} (hk : Hooks σ)
    (Hcyc : ∀ t, 1 ≤ (hk.z80_exec t).2)
    (Hp : ∀ t, (hk.psg_exec t).2 = 1)
    (Hs : ∀ t, (hk.sgmpsg_exec t).2 = 1) :
    ∀ (n : Nat) (a : FrameAcc σ), a.psgcycs < 16 →
    ∃ r dd, frameLoop hk n a = some r ∧
      r.vdpcalls = a.vdpcalls + n ∧
      r.totcycs = a.totcycs + dd ∧
      r.psgcycs = (a.psgcycs + dd) % 16 ∧
      r.psgcalls = a.psgcalls + (a.psgcycs + dd) / 16 ∧
      r.sgmcalls = a.sgmcalls + (a.psgcycs + dd) / 16 ∧
      r.psgsamps = a.psgsamps + (a.psgcycs + dd) / 16 ∧
      r.sgmsamps = a.sgmsamps + (a.psgcycs + dd) / 16 ∧
      r.psgcycs < 16 := by
  intro n
  induction n with
  | zero =>
    intro a h
    exact ⟨a, 0, rfl, by omega, by omega, by omega, by omega, by omega,
      by omega, by omega, h⟩
  | succ n ih =>
    intro a h
    obtain ⟨k, e1, e2, e3⟩ :=
      lineLoop_spec hk Hcyc (228 - a.extcycs) (228 - a.extcycs)
        { s := a.s, linecycs := 0, psgcycs := a.psgcycs,
          psgsamps := a.psgsamps, sgmsamps := a.sgmsamps,
          psgcalls := a.psgcalls, sgmcalls := a.sgmcalls }
        (by omega)
    obtain ⟨d, l1, l2, l3, l4, l5, l6, l7⟩ :=
      lineIter_spec hk Hp Hs k
        { s := a.s, linecycs := 0, psgcycs := a.psgcycs,
          psgsamps := a.psgsamps, sgmsamps := a.sgmsamps,
          psgcalls := a.psgcalls, sgmcalls := a.sgmcalls }
        (show a.psgcycs < 16 from h)
    obtain ⟨r, dd, f1, f2, f3, f4, f5, f6, f7, f8, f9⟩ :=
      ih
        { s := hk.vdp_exec (lineIter hk k
            { s := a.s, linecycs := 0, psgcycs := a.psgcycs,
              psgsamps := a.psgsamps, sgmsamps := a.sgmsamps,
              psgcalls := a.psgcalls, sgmcalls := a.sgmcalls }).s,
          extcycs := (lineIter hk k
            { s := a.s, linecycs := 0, psgcycs := a.psgcycs,
              psgsamps := a.psgsamps, sgmsamps := a.sgmsamps,
              psgcalls := a.psgcalls, sgmcalls := a.sgmcalls }).linecycs -
            (228 - a.extcycs),
          psgcycs := (lineIter hk k
            { s := a.s, linecycs := 0, psgcycs := a.psgcycs,
              psgsamps := a.psgsamps, sgmsamps := a.sgmsamps,
              psgcalls := a.psgcalls, sgmcalls := a.sgmcalls }).psgcycs,
          psgsamps := (lineIter hk k
            { s := a.s, linecycs := 0, psgcycs := a.psgcycs,
              psgsamps := a.psgsamps, sgmsamps := a.sgmsamps,
              psgcalls := a.psgcalls, sgmcalls := a.sgmcalls }).psgsamps,
          sgmsamps := (lineIter hk k
            { s := a.s, linecycs := 0, psgcycs := a.psgcycs,
              psgsamps := a.psgsamps, sgmsamps := a.sgmsamps,
              psgcalls := a.psgcalls, sgmcalls := a.sgmcalls }).sgmsamps,
          psgcalls := (lineIter hk k
            { s := a.s, linecycs := 0, psgcycs := a.psgcycs,
              psgsamps := a.psgsamps, sgmsamps := a.sgmsamps,
              psgcalls := a.psgcalls, sgmcalls := a.sgmcalls }).psgcalls,
          sgmcalls := (lineIter hk k
            { s := a.s, linecycs := 0, psgcycs := a.psgcycs,
              psgsamps := a.psgsamps, sgmsamps := a.sgmsamps,
              psgcalls := a.psgcalls, sgmcalls := a.sgmcalls }).sgmcalls,
          vdpcalls := a.vdpcalls + 1,
          totcycs := a.totcycs + (lineIter hk k
            { s := a.s, linecycs := 0, psgcycs := a.psgcycs,
              psgsamps := a.psgsamps, sgmsamps := a.sgmsamps,
              psgcalls := a.psgcalls, sgmcalls := a.sgmcalls }).linecycs }
        (show (lineIter hk k
            { s := a.s, linecycs := 0, psgcycs := a.psgcycs,
              psgsamps := a.psgsamps, sgmsamps := a.sgmsamps,
              psgcalls := a.psgcalls, sgmcalls := a.sgmcalls }).psgcycs < 16
          from l7)
    refine ⟨r, d + dd, ?_, ?_, ?_, ?_, ?_, ?_, ?_, ?_, f9⟩
    · simp only [frameLoop, e1]
      exact f1
    · rw [f2]
      show a.vdpcalls + 1 + n = a.vdpcalls + (n + 1)
      omega
    · rw [f3]
      show a.totcycs + (lineIter hk k
          { s := a.s, linecycs := 0, psgcycs := a.psgcycs,
            psgsamps := a.psgsamps, sgmsamps := a.sgmsamps,
            psgcalls := a.psgcalls, sgmcalls := a.sgmcalls }).linecycs + dd =
        a.totcycs + (d + dd)
      rw [l1]
      show a.totcycs + (0 + d) + dd = a.totcycs + (d + dd)
      omega
    · rw [f4]
      show ((lineIter hk k
          { s := a.s, linecycs := 0, psgcycs := a.psgcycs,
            psgsamps := a.psgsamps, sgmsamps := a.sgmsamps,
            psgcalls := a.psgcalls, sgmcalls := a.sgmcalls }).psgcycs + dd) % 16 =
        (a.psgcycs + (d + dd)) % 16
      rw [l2]
      show ((a.psgcycs + d) % 16 + dd) % 16 = (a.psgcycs + (d + dd)) % 16
      omega
    · rw [f5]
      show (lineIter hk k
          { s := a.s, linecycs := 0, psgcycs := a.psgcycs,
            psgsamps := a.psgsamps, sgmsamps := a.sgmsamps,
            psgcalls := a.psgcalls, sgmcalls := a.sgmcalls }).psgcalls +
          ((lineIter hk k
          { s := a.s, linecycs := 0, psgcycs := a.psgcycs,
            psgsamps := a.psgsamps, sgmsamps := a.sgmsamps,
            psgcalls := a.psgcalls, sgmcalls := a.sgmcalls }).psgcycs + dd) / 16 =
        a.psgcalls + (a.psgcycs + (d + dd)) / 16
      rw [l3, l2]
      show a.psgcalls + (a.psgcycs + d) / 16 +
          ((a.psgcycs + d) % 16 + dd) / 16 =
        a.psgcalls + (a.psgcycs + (d + dd)) / 16
      omega
    · rw [f6]
      show (lineIter hk k
          { s := a.s, linecycs := 0, psgcycs := a.psgcycs,
            psgsamps := a.psgsamps, sgmsamps := a.sgmsamps,
            psgcalls := a.psgcalls, sgmcalls := a.sgmcalls }).sgmcalls +
          ((lineIter hk k
          { s := a.s, linecycs := 0, psgcycs := a.psgcycs,
            psgsamps := a.psgsamps, sgmsamps := a.sgmsamps,
            psgcalls := a.psgcalls, sgmcalls := a.sgmcalls }).psgcycs + dd) / 16 =
        a.sgmcalls + (a.psgcycs + (d + dd)) / 16
      rw [l4, l2]
      show a.sgmcalls + (a.psgcycs + d) / 16 +
          ((a.psgcycs + d) % 16 + dd) / 16 =
        a.sgmcalls + (a.psgcycs + (d + dd)) / 16
      omega
    · rw [f7]
      show (lineIter hk k
          { s := a.s, linecycs := 0, psgcycs := a.psgcycs,
            psgsamps := a.psgsamps, sgmsamps := a.sgmsamps,
            psgcalls := a.psgcalls, sgmcalls := a.sgmcalls }).psgsamps +
          ((lineIter hk k
          { s := a.s, linecycs := 0, psgcycs := a.psgcycs,
            psgsamps := a.psgsamps, sgmsamps := a.sgmsamps,
            psgcalls := a.psgcalls, sgmcalls := a.sgmcalls }).psgcycs + dd) / 16 =
        a.psgsamps + (a.psgcycs + (d + dd)) / 16
      rw [l5, l2]
      show a.psgsamps + (a.psgcycs + d) / 16 +
          ((a.psgcycs + d) % 16 + dd) / 16 =
        a.psgsamps + (a.psgcycs + (d + dd)) / 16
      omega
    · rw [f8]
      show (lineIter hk k
          { s := a.s, linecycs := 0, psgcycs := a.psgcycs,
            psgsamps := a.psgsamps, sgmsamps := a.sgmsamps,
            psgcalls := a.psgcalls, sgmcalls := a.sgmcalls }).sgmsamps +
          ((lineIter hk k
          { s := a.s, linecycs := 0, psgcycs := a.psgcycs,
            psgsamps := a.psgsamps, sgmsamps := a.sgmsamps,
            psgcalls := a.psgcalls, sgmcalls := a.sgmcalls }).psgcycs + dd) / 16 =
        a.sgmsamps + (a.psgcycs + (d + dd)) / 16
      rw [l6, l2]
      show a.sgmsamps + (a.psgcycs + d) / 16 +
          ((a.psgcycs + d) % 16 + dd) / 16 =
        a.sgmsamps + (a.psgcycs + (d + dd)) / 16
      omega

/-! ## Claim C1 — save/load round-trip and commutation with the frame step -/

/-- C1: on states satisfying the C type bounds (every reachable state does,
by construction of the C storage types), `state_save ; state_load` is the
identity, so it commutes with the frame step: running the frame step after
a save/load round-trip equals running it directly, the round-trip after the
frame step returns the post-frame state, and the snapshots taken on the two
sides are byte-identical.  The frame step is abstracted as an arbitrary
bounds-preserving state transformer `f` — `jcv_exec` under any sequence of
host inputs is one such (the Z80 interpreter is external to this
repository, and every C frame step preserves the storage bounds). -/
theorem C1_save_load_roundtrip (s : CVState) (f : CVState → CVState)
    (hs : ValidState s) (hf : ValidState (f s)) :
    jcv_state_load_raw (jcv_state_save_raw s) s = s ∧
    f (jcv_state_load_raw (jcv_state_save_raw s) s) = f s ∧
    jcv_state_load_raw (jcv_state_save_raw (f s)) (f s) = f s ∧
    jcv_state_save_raw (f (jcv_state_load_raw (jcv_state_save_raw s) s)) =
      jcv_state_save_raw
        (jcv_state_load_raw (jcv_state_save_raw (f s)) (f s)) := by
  have h1 := state_save_load_id s hs
  have h2 := state_save_load_id (f s) hf
  exact ⟨h1, by rw [h1], h2, by rw [h1, h2]⟩

set_option maxRecDepth 4096 in
/-- Witness for C1 at the all-zero state with the identity frame step. -/
theorem C1_save_load_roundtrip_witness :
    (ValidState zeroCV ∧ ValidState (id zeroCV)) ∧
    jcv_state_load_raw (jcv_state_save_raw zeroCV) zeroCV = zeroCV :=
  have hz : ValidState zeroCV := by
    refine ⟨?_, ?_, ?_, ?_, ?_⟩ <;>
      simp [ValidMemio, ValidPsg, ValidSgm, ValidVdp, ValidZ80, zeroCV,
        zeroMemio, zeroPsg, zeroSgm, zeroVdp, zeroZ80]
  ⟨⟨hz, hz⟩, (C1_save_load_roundtrip zeroCV id hz hz).1⟩

/-! ## Claim C5 — VBlank NMI gating -/

/-- C5: every `jcv_vdp_exec` call that brings the line counter to 192 (that
is, one starting at line 191) sets the status INT bit, and pulses the Z80
NMI exactly when control register 1's GINT bit is set and the status INT bit
was clear before the call; a call starting at any other line never pulses an
NMI. -/
theorem C5_vblank_nmi_gating (v : Vdp) :
    (v.line = 191 →
      (jcv_vdp_exec v).stat &&& 0x80 = 0x80 ∧
      (jcv_vdp_exec v).nmiPulses =
        v.nmiPulses +
          (if jcv_vdp_gint v ≠ 0 ∧ jcv_vdp_int v = 0 then 1 else 0)) ∧
    (v.line ≠ 191 → (jcv_vdp_exec v).nmiPulses = v.nmiPulses) := by
  obtain ⟨r1, r2, r3, r4, r5⟩ := render_stage_frame v
  obtain ⟨e1, e2⟩ := exec_post_edge (jcv_vdp_render_stage v)
  rw [r3] at e1 e2
  constructor
  · intro h
    obtain ⟨s1, s2⟩ := e1 h
    refine ⟨s1, ?_⟩
    show (jcv_vdp_exec_post (jcv_vdp_render_stage v)).nmiPulses = _
    rw [s2, r2, r4, r1]
    simp only [jcv_vdp_gint, jcv_vdp_int]
  · intro h
    show (jcv_vdp_exec_post (jcv_vdp_render_stage v)).nmiPulses = v.nmiPulses
    rw [e2 h, r2]

/-- Witness for C5 on the zero VDP context placed at line 191: the guard of
the theorem's first implication is discharged at the concrete input. -/
theorem C5_vblank_nmi_gating_witness :
    ({ zeroVdp with line := 191 } : Vdp).line = 191 ∧
    ((jcv_vdp_exec { zeroVdp with line := 191 }).stat &&& 0x80 = 0x80 ∧
     (jcv_vdp_exec { zeroVdp with line := 191 }).nmiPulses =
       ({ zeroVdp with line := 191 } : Vdp).nmiPulses +
         (if jcv_vdp_gint { zeroVdp with line := 191 } ≠ 0 ∧
             jcv_vdp_int { zeroVdp with line := 191 } = 0 then 1 else 0)) :=
  ⟨rfl, (C5_vblank_nmi_gating { zeroVdp with line := 191 }).1 rfl⟩

/-! ## Claim C10 — frame effect of state load -/

/-- C10: `jcv_state_load_raw` assigns only system RAM, SGM RAM, `cseg`,
`ctrl[0..1]`, `rompage[0..3]` and the PSG, SGM-PSG, VDP and Z80 sub-states;
`sgm_lower`, `sgm_upper` and `megacart` (as well as the BIOS/ROM pointers,
page count, callbacks, cycle statics and the unserialized buffer fields)
are left unchanged, and the snapshot produced by `jcv_state_save_raw` does
not depend on the three flags at all. -/
theorem C10_state_load_frame_effect (s : CVState) (bytes : List Nat)
    (u l mc : Nat) :
    (jcv_state_load_raw bytes s).memio.sgm_lower = s.memio.sgm_lower ∧
    (jcv_state_load_raw bytes s).memio.sgm_upper = s.memio.sgm_upper ∧
    (jcv_state_load_raw bytes s).memio.megacart = s.memio.megacart ∧
    (jcv_state_load_raw bytes s).memio.cvbios = s.memio.cvbios ∧
    (jcv_state_load_raw bytes s).memio.romdata = s.memio.romdata ∧
    (jcv_state_load_raw bytes s).memio.romsize = s.memio.romsize ∧
    (jcv_state_load_raw bytes s).memio.rompages = s.memio.rompages ∧
    (jcv_state_load_raw bytes s).memio.inputcb = s.memio.inputcb ∧
    (jcv_state_load_raw bytes s).extracycs = s.extracycs ∧
    (jcv_state_load_raw bytes s).delaycycs = s.delaycycs ∧
    (jcv_state_load_raw bytes s).psgcycs = s.psgcycs ∧
    (jcv_state_load_raw bytes s).numscanlines = s.numscanlines ∧
    (jcv_state_load_raw bytes s).psg.buf = s.psg.buf ∧
    (jcv_state_load_raw bytes s).psg.bufpos = s.psg.bufpos ∧
    (jcv_state_load_raw bytes s).sgmpsg.buf = s.sgmpsg.buf ∧
    (jcv_state_load_raw bytes s).sgmpsg.bufpos = s.sgmpsg.bufpos ∧
    (jcv_state_load_raw bytes s).vdp.vbuf = s.vdp.vbuf ∧
    (jcv_state_load_raw bytes s).vdp.palette = s.vdp.palette ∧
    (jcv_state_load_raw bytes s).vdp.numscanlines = s.vdp.numscanlines ∧
    (jcv_state_load_raw bytes s).vdp.nmiPulses = s.vdp.nmiPulses ∧
    jcv_state_save_raw
      { s with memio :=
          { s.memio with sgm_lower := l, sgm_upper := u, megacart := mc } } =
      jcv_state_save_raw s := by
  have hm : pushMemio
      { s.memio with sgm_lower := l, sgm_upper := u, megacart := mc } =
      pushMemio s.memio := by
    simp only [pushMemio]
  refine ⟨?h1, ?h2, ?h3, ?h4, ?h5, ?h6, ?h7, ?h8, ?h9, ?h10, ?h11, ?h12, ?h13,
    ?h14, ?h15, ?h16, ?h17, ?h18, ?h19, ?h20, ?hsave⟩
  case h1 => simp only [jcv_state_load_raw, popMemio]
  case h2 => simp only [jcv_state_load_raw, popMemio]
  case h3 => simp only [jcv_state_load_raw, popMemio]
  case h4 => simp only [jcv_state_load_raw, popMemio]
  case h5 => simp only [jcv_state_load_raw, popMemio]
  case h6 => simp only [jcv_state_load_raw, popMemio]
  case h7 => simp only [jcv_state_load_raw, popMemio]
  case h8 => simp only [jcv_state_load_raw, popMemio]
  case h9 => simp only [jcv_state_load_raw]
  case h10 => simp only [jcv_state_load_raw]
  case h11 => simp only [jcv_state_load_raw]
  case h12 => simp only [jcv_state_load_raw]
  case h13 => simp only [jcv_state_load_raw, popPsg]
  case h14 => simp only [jcv_state_load_raw, popPsg]
  case h15 => simp only [jcv_state_load_raw, popSgm]
  case h16 => simp only [jcv_state_load_raw, popSgm]
  case h17 => simp only [jcv_state_load_raw, popVdp]
  case h18 => simp only [jcv_state_load_raw, popVdp]
  case h19 => simp only [jcv_state_load_raw, popVdp]
  case h20 => simp only [jcv_state_load_raw, popVdp]
  case hsave =>
    show pushMemio { s.memio with sgm_lower := l, sgm_upper := u, megacart := mc } ++
        pushPsg s.psg ++ pushSgm s.sgmpsg ++ pushVdp s.vdp ++ pushZ80 s.z80 =
      pushMemio s.memio ++ pushPsg s.psg ++ pushSgm s.sgmpsg ++ pushVdp s.vdp ++
        pushZ80 s.z80
    rw [hm]

/-! ## Claim C8 — save-state size enforcement (corrected)

The claim says every state-load entry point rejects input whose size differs
from the 50392-byte constant and leaves the state unchanged on rejection.
The constant part holds.  The rejection part does not: `jcv_state_load`
never compares the file size with `jcv_state_size` and reports success for
any readable contents, and the OpenEmu `deserializeState` wrapper reports
an error for mismatched sizes only *after* `jcv_state_load_raw` has already
overwritten the emulator state. -/

/-- C8 counterexample: a 1-byte blob (size ≠ `jcv_state_size`) is accepted
by `jcv_state_load` (returns 1, the success value), and loading it changes
the state (system RAM byte 0 becomes the blob's first byte, 7, instead of
the previous 0). -/
theorem C8_size_enforcement_counterexample :
    ([7] : List Nat).length ≠ jcv_state_size ∧
    (jcv_state_load zeroCV [7]).1 = 1 ∧
    (jcv_state_load zeroCV [7]).2.memio.cvsys.ram 0 = 7 ∧
    zeroCV.memio.cvsys.ram 0 = 0 := by
  exact ⟨by decide, rfl, by decide, rfl⟩

/-- C8 (amended): `jcv_state_size` is the fixed constant 50392;
`jcv_state_load_raw` applies any buffer unconditionally; `jcv_state_load`
performs no size validation and returns success (1) for any file contents;
OpenEmu's `deserializeState` reports failure exactly when the length differs
from the constant, but only after the state has already been loaded. -/
theorem C8_state_size_enforcement (s : CVState) (bytes : List Nat) :
    jcv_state_size = 50392 ∧
    (jcv_state_load s bytes).1 = 1 ∧
    (jcv_state_load s bytes).2 = jcv_state_load_raw bytes s ∧
    (deserializeState s bytes).1 = decide (bytes.length = jcv_state_size) ∧
    (deserializeState s bytes).2 = jcv_state_load_raw bytes s :=
  ⟨rfl, rfl, rfl, rfl, rfl⟩

/-! ## Claim C2 — frame scheduler interleaving -/

/-- C2: with a Z80 hook reporting at least one cycle per instruction and PSG
hooks reporting one sample per call (the in-repo PSG cores do, first two
conjuncts): each scanline iteration of `jcv_exec` runs the CPU loop with
budget `reqcycs = 228 - extcycs` until `linecycs ≥ reqcycs` (the first such
iterate), then proceeds with `extcycs = linecycs - reqcycs` and exactly one
`vdp_exec`; over a whole frame of `numscanlines` scanlines, `jcv_exec`
completes with `vdp_exec` called exactly `numscanlines` times and both PSGs
stepped exactly once (one sample each) per 16 accumulated Z80 cycles, the
divide-by-16 counter being carried across instructions, scanlines and (via
the returned `SchedSt`) frames. -/
theorem C2_frame_scheduler {σ : Type} (hk : Hooks σ)
    (Hcyc : ∀ t, 1 ≤ (hk.z80_exec t).2)
    (Hp : ∀ t, (hk.psg_exec t).2 = 1)
    (Hs : ∀ t, (hk.sgmpsg_exec t).2 = 1) :
    (∀ p, (jcv_psg_exec p).2 = 1) ∧
    (∀ q, (jcv_sgmpsg_exec q).2 = 1) ∧
    (∀ (n : Nat) (a : FrameAcc σ), ∃ k,
      lineLoop hk (228 - a.extcycs) (228 - a.extcycs) { s := a.s, linecycs := 0, psgcycs := a.psgcycs, psgsamps := a.psgsamps, sgmsamps := a.sgmsamps, psgcalls := a.psgcalls, sgmcalls := a.sgmcalls } =
        some (lineIter hk k { s := a.s, linecycs := 0, psgcycs := a.psgcycs, psgsamps := a.psgsamps, sgmsamps := a.sgmsamps, psgcalls := a.psgcalls, sgmcalls := a.sgmcalls }) ∧
      228 - a.extcycs ≤ (lineIter hk k { s := a.s, linecycs := 0, psgcycs := a.psgcycs, psgsamps := a.psgsamps, sgmsamps := a.sgmsamps, psgcalls := a.psgcalls, sgmcalls := a.sgmcalls }).linecycs ∧
      (∀ m, m < k → (lineIter hk m { s := a.s, linecycs := 0, psgcycs := a.psgcycs, psgsamps := a.psgsamps, sgmsamps := a.sgmsamps, psgcalls := a.psgcalls, sgmcalls := a.sgmcalls }).linecycs < 228 - a.extcycs) ∧
      frameLoop hk (n + 1) a = frameLoop hk n { s := hk.vdp_exec (lineIter hk k { s := a.s, linecycs := 0, psgcycs := a.psgcycs, psgsamps := a.psgsamps, sgmsamps := a.sgmsamps, psgcalls := a.psgcalls, sgmcalls := a.sgmcalls }).s, extcycs := (lineIter hk k { s := a.s, linecycs := 0, psgcycs := a.psgcycs, psgsamps := a.psgsamps, sgmsamps := a.sgmsamps, psgcalls := a.psgcalls, sgmcalls := a.sgmcalls }).linecycs - (228 - a.extcycs), psgcycs := (lineIter hk k { s := a.s, linecycs := 0, psgcycs := a.psgcycs, psgsamps := a.psgsamps, sgmsamps := a.sgmsamps, psgcalls := a.psgcalls, sgmcalls := a.sgmcalls }).psgcycs, psgsamps := (lineIter hk k { s := a.s, linecycs := 0, psgcycs := a.psgcycs, psgsamps := a.psgsamps, sgmsamps := a.sgmsamps, psgcalls := a.psgcalls, sgmcalls := a.sgmcalls }).psgsamps, sgmsamps := (lineIter hk k { s := a.s, linecycs := 0, psgcycs := a.psgcycs, psgsamps := a.psgsamps, sgmsamps := a.sgmsamps, psgcalls := a.psgcalls, sgmcalls := a.sgmcalls }).sgmsamps, psgcalls := (lineIter hk k { s := a.s, linecycs := 0, psgcycs := a.psgcycs, psgsamps := a.psgsamps, sgmsamps := a.sgmsamps, psgcalls := a.psgcalls, sgmcalls := a.sgmcalls }).psgcalls, sgmcalls := (lineIter hk k { s := a.s, linecycs := 0, psgcycs := a.psgcycs, psgsamps := a.psgsamps, sgmsamps := a.sgmsamps, psgcalls := a.psgcalls, sgmcalls := a.sgmcalls }).sgmcalls, vdpcalls := a.vdpcalls + 1, totcycs := a.totcycs + (lineIter hk k { s := a.s, linecycs := 0, psgcycs := a.psgcycs, psgsamps := a.psgsamps, sgmsamps := a.sgmsamps, psgcalls := a.psgcalls, sgmcalls := a.sgmcalls }).linecycs }) ∧
    (∀ (nl : Nat) (w : SchedSt σ), w.psgcycs < 16 → ∃ r,
      frameLoop hk nl { s := w.s, extcycs := w.extracycs, psgcycs := w.psgcycs, psgsamps := 0, sgmsamps := 0, psgcalls := 0, sgmcalls := 0, vdpcalls := 0, totcycs := 0 } = some r ∧
      jcv_exec hk nl w =
        some { s := hk.mixer r.s r.psgsamps r.sgmsamps, extracycs := r.extcycs, psgcycs := r.psgcycs } ∧
      r.vdpcalls = nl ∧
      r.psgcycs = (w.psgcycs + r.totcycs) % 16 ∧
      r.psgcalls = (w.psgcycs + r.totcycs) / 16 ∧
      r.sgmcalls = r.psgcalls ∧
      r.psgsamps = r.psgcalls ∧
      r.sgmsamps = r.psgcalls) := by
  refine ⟨fun p => rfl, fun q => rfl, ?_, ?_⟩
  · intro n a
    obtain ⟨k, e1, e2, e3⟩ :=
      lineLoop_spec hk Hcyc (228 - a.extcycs) (228 - a.extcycs) { s := a.s, linecycs := 0, psgcycs := a.psgcycs, psgsamps := a.psgsamps, sgmsamps := a.sgmsamps, psgcalls := a.psgcalls, sgmcalls := a.sgmcalls } (by omega)
    exact ⟨k, e1, e2, e3, by simp only [frameLoop, e1]⟩
  · intro nl w h
    obtain ⟨r, dd, f1, f2, f3, f4, f5, f6, f7, f8, f9⟩ :=
      frameLoop_spec hk Hcyc Hp Hs nl { s := w.s, extcycs := w.extracycs, psgcycs := w.psgcycs, psgsamps := 0, sgmsamps := 0, psgcalls := 0, sgmcalls := 0, vdpcalls := 0, totcycs := 0 } (show w.psgcycs < 16 from h)
    refine ⟨r, f1, ?_, ?_, ?_, ?_, ?_, ?_, ?_⟩
    · simp only [jcv_exec, f1]
    · rw [f2]
      show 0 + nl = nl
      omega
    · rw [f4, f3]
      show (w.psgcycs + dd) % 16 = (w.psgcycs + (0 + dd)) % 16
      omega
    · rw [f5, f3]
      show 0 + (w.psgcycs + dd) / 16 = (w.psgcycs + (0 + dd)) / 16
      omega
    · rw [f6, f5]
    · rw [f7, f5]
    · rw [f8, f5]

/-- Witness for C2 with the constant-cycle hooks: all three hook hypotheses
are discharged at `unitHooks`. -/
theorem C2_frame_scheduler_witness :
    ((∀ t : Nat, 1 ≤ (unitHooks.z80_exec t).2) ∧
     (∀ t : Nat, (unitHooks.psg_exec t).2 = 1) ∧
     (∀ t : Nat, (unitHooks.sgmpsg_exec t).2 = 1)) ∧
    (∀ p, (jcv_psg_exec p).2 = 1) :=
  ⟨⟨fun _ => Nat.le_refl 1, fun _ => rfl, fun _ => rfl⟩,
   (C2_frame_scheduler unitHooks (fun _ => Nat.le_refl 1) (fun _ => rfl)
      (fun _ => rfl)).1⟩
